import Mathlib

/-!
# planetGame: the OpenGL ES cube renderer (`SimpleRenderer.cpp`)

A shallow embedding of `OpenGLESApp7.Shared/SimpleRenderer.cpp` and
`SimpleRenderer.h`, and the properties of the renderer proved on it.

* The graphics driver is an explicit state, `GLState`: the live program,
  shader, buffer and texture names, and the list of the calls made, oldest
  first. Every function of the source that calls the driver takes the state
  and returns the new one.
* What the driver answers (the names it hands out, compile and link status,
  info logs, attribute and uniform locations) is a parameter, `Driver`.
* A C++ exception is an `Except.error`, returned with the driver state at the
  throw; reading `textureVec` past its end, or writing through a reference to
  an element it does not have, is undefined behaviour, `none`.
* `float` expressions are kept as written (`FloatExpr`). `FloatExpr.binary32`
  is the value the machine computes, in IEEE binary32 with every operation
  rounded to nearest, ties to even; `FloatExpr.eval` is the exact value of
  the expression, were nothing rounded.
* `MathHelper.h` is not among the two source files: a call into it is kept as
  written (`MatExpr`).
* `int` is 32 bits wide (`wrapInt32`); `GLuint` names are natural numbers.

The definitions come first, then the lemmas, then one section for each group
of properties.
-/

namespace PlanetGame

/-! ## Constants of `GLES2/gl2.h` -/

def GL_FALSE : Nat := 0
def GL_TRIANGLES : Nat := 0x0004
def GL_DEPTH_BUFFER_BIT : Nat := 0x00000100
def GL_COLOR_BUFFER_BIT : Nat := 0x00004000
def GL_DEPTH_TEST : Nat := 0x0B71
def GL_TEXTURE_2D : Nat := 0x0DE1
def GL_UNSIGNED_BYTE : Nat := 0x1401
def GL_UNSIGNED_SHORT : Nat := 0x1403
def GL_FLOAT : Nat := 0x1406
def GL_RGB : Nat := 0x1907
def GL_LINEAR : Nat := 0x2601
def GL_TEXTURE_MAG_FILTER : Nat := 0x2800
def GL_TEXTURE_MIN_FILTER : Nat := 0x2801
def GL_TEXTURE_WRAP_S : Nat := 0x2802
def GL_TEXTURE_WRAP_T : Nat := 0x2803
def GL_REPEAT : Nat := 0x2901
def GL_TEXTURE0 : Nat := 0x84C0
def GL_ARRAY_BUFFER : Nat := 0x8892
def GL_ELEMENT_ARRAY_BUFFER : Nat := 0x8893
def GL_STATIC_DRAW : Nat := 0x88E4
def GL_FRAGMENT_SHADER : Nat := 0x8B30
def GL_VERTEX_SHADER : Nat := 0x8B31
def GL_COMPILE_STATUS : Nat := 0x8B81
def GL_LINK_STATUS : Nat := 0x8B82
def GL_INFO_LOG_LENGTH : Nat := 0x8B84

/-! ## Numbers -/

/-- The value an `int` (32 bits, two's complement) holds after an arithmetic
result `i`; C++ leaves signed overflow undefined, the targets wrap. -/
def wrapInt32 (i : Int) : Int := (i + 2 ^ 31) % 2 ^ 32 - 2 ^ 31

/-- The conversion of a `GLint` to a `GLuint` parameter. -/
def toGLuint (i : Int) : Nat := (i % 2 ^ 32).toNat

/-- A `float` expression of the source, kept as written: a literal
`num / den` (`4.33f` is `lit 433 100`), the conversion of an integer, or a
quotient. -/
inductive FloatExpr where
  | lit (num : Int) (den : Nat)
  | ofInt (i : Int)
  | div (a b : FloatExpr)
  deriving DecidableEq, Repr

/-- The integer nearest to `x`, the even one of the two when `x` is half way
between them. -/
def roundNearestEven (x : Rat) : Int :=
  if x - ⌊x⌋ < 1 / 2 then ⌊x⌋
  else if 1 / 2 < x - ⌊x⌋ then ⌊x⌋ + 1
  else if ⌊x⌋ % 2 = 0 then ⌊x⌋
  else ⌊x⌋ + 1

/-- The distance between the binary32 numbers around `q`: 24 significant
bits, and no exponent below -126. -/
def ulpBinary32 (q : Rat) : Rat := 2 ^ (max (Int.log 2 |q|) (-126) - 23)

/-- The IEEE binary32 number that `q` rounds to (to nearest, ties to even);
`none` when it rounds to an infinity. The sign of a zero is not kept. -/
def roundBinary32 (q : Rat) : Option Rat :=
  let r := (roundNearestEven (q / ulpBinary32 q) : Rat) * ulpBinary32 q
  if |r| < 2 ^ 128 then some r else none

/-- The value of a `float` expression as the machine computes it: a literal
and the conversion of an integer are rounded to binary32, and so is every
quotient; `none` when a divisor is zero or a result is an infinity (the
`float` is then infinite or not a number, and an expression built on it is
given no value here). -/
def FloatExpr.binary32 : FloatExpr → Option Rat
  | .lit num den => if den = 0 then none else roundBinary32 ((num : Rat) / (den : Rat))
  | .ofInt i => roundBinary32 (i : Rat)
  | .div a b =>
    match a.binary32, b.binary32 with
    | some x, some y => if y = 0 then none else roundBinary32 (x / y)
    | _, _ => none

/-- A call into `MathHelper.h` that returns a `Matrix4`, kept as written. -/
inductive MatExpr where
  | SimpleModelMatrix (radians : FloatExpr)
  | SimpleViewMatrix
  | SimpleProjectionMatrix (aspectRatio : FloatExpr)
  deriving DecidableEq, Repr

/-- The components `m[0..2]` of `MathHelper::vector3(x, y, z)`. -/
def vector3 (x y z : FloatExpr) : List FloatExpr := [x, y, z]

/-! ## The graphics driver -/

/-- One call into the graphics library, with its arguments. -/
inductive GLCall where
  | glCreateShader (type : Nat)
  | glShaderSource (shader : Nat) (source : String)
  | glCompileShader (shader : Nat)
  | glGetShaderiv (shader pname : Nat)
  | glGetShaderInfoLog (shader bufSize : Nat)
  | glCreateProgram
  | glDeleteShader (shader : Nat)
  | glDeleteProgram (program : Nat)
  | glAttachShader (program shader : Nat)
  | glLinkProgram (program : Nat)
  | glGetProgramiv (program pname : Nat)
  | glGetProgramInfoLog (program bufSize : Nat)
  | glGetAttribLocation (program : Nat) (name : String)
  | glGetUniformLocation (program : Nat) (name : String)
  | glGenBuffers (n : Nat)
  | glBindBuffer (target buffer : Nat)
  | glBufferData (target size : Nat) (data : List Int) (usage : Nat)
  | glDeleteBuffers (n buffer : Nat)
  | glEnable (cap : Nat)
  | glClear (mask : Nat)
  | glUseProgram (program : Nat)
  | glActiveTexture (texture : Nat)
  | glBindTexture (target texture : Nat)
  | glUniform1i (location v0 : Int)
  | glEnableVertexAttribArray (index : Nat)
  | glVertexAttribPointer (index : Nat) (size : Int) (type normalized : Nat)
      (stride : Int) (pointer : Nat)
  | glUniformMatrix4fv (location count : Int) (transpose : Nat) (value : MatExpr)
  | glUniform3fv (location count : Int) (value : List FloatExpr)
  | glUniform1fv (location count : Int) (value : List FloatExpr)
  | glDrawElements (mode : Nat) (count : Int) (type pointer : Nat)
  | glViewport (x y width height : Int)
  | glGenTextures (n : Nat)
  | glTexParameteri (target pname : Nat) (param : Int)
  | glTexImage2D (target : Nat) (level internalformat width height border : Int)
      (format type : Nat) (pixels : List Nat)
  deriving DecidableEq, Repr

/-- The state of the graphics library: the names of the live objects of each
kind, and every call made so far, oldest first. -/
structure GLState where
  programs : List Nat
  shaders : List Nat
  buffers : List Nat
  textures : List Nat
  log : List GLCall
  deriving DecidableEq, Repr

/-- The exceptions the source can throw: the `std::runtime_error` of
`CompileShader` and `CompileProgram`, with its message; the
`std::length_error` of `std::vector` for a size beyond `max_size()` (a
`std::bad_alloc` in older libraries); and `std::bad_alloc`. -/
inductive Exception where
  | runtime_error (what : String)
  | length_error
  | bad_alloc
  deriving DecidableEq, Repr

/-- The zero character, which ends a C string. -/
def NUL : Char := Char.ofNat 0

/-- `std::string::c_str()` as a C string reads it: the characters before the
first zero character. -/
def c_str (s : String) : String := String.mk (s.data.takeWhile (fun c => c != NUL))

/-- What the driver, and the heap, answer. Every answer of the driver may
depend on the whole state and history. `createProgram` and `createShader`
answer `0` on failure. `getShaderiv` and `getProgramiv` give the value found
in the variable after the query (for a name that is no object the variable is
left as it was, uninitialised in the source: the value is then whatever the
structure says). The info logs are the text of the log, a C string.
`glGenBuffers` and `glGenTextures` hand out non-zero names that are not in
use. `allocates n` says whether the heap can hold an info log of `n`
characters (the vector and the strings built from it); smaller allocations
are taken to succeed. -/
structure Driver where
  createProgram : GLState → Nat
  createShader : GLState → Nat → Nat
  genBuffer : GLState → Nat
  genTexture : GLState → Nat
  getShaderiv : GLState → Nat → Nat → Int
  shaderInfoLog : GLState → Nat → String
  getProgramiv : GLState → Nat → Nat → Int
  programInfoLog : GLState → Nat → String
  attribLocation : GLState → Nat → String → Int
  uniformLocation : GLState → Nat → String → Int
  allocates : Nat → Bool
  genBuffer_ne_zero : ∀ g, genBuffer g ≠ 0
  genBuffer_fresh : ∀ g, genBuffer g ∉ g.buffers
  genTexture_ne_zero : ∀ g, genTexture g ≠ 0
  genTexture_fresh : ∀ g, genTexture g ∉ g.textures

/-- Record a call in the history. -/
def emit (c : GLCall) (g : GLState) : GLState := { g with log := g.log ++ [c] }

/-- The list without the name `n`. -/
def release (n : Nat) (l : List Nat) : List Nat := l.filter (fun m => m ≠ n)

/-- The list with the name `n` added, unless `n` is `0` (no object). -/
def register (n : Nat) (l : List Nat) : List Nat := if n = 0 then l else l ++ [n]

/-! ### The calls the renderer makes -/

def glCreateShader (D : Driver) (type : Nat) (g : GLState) : Nat × GLState :=
  let shader := D.createShader g type
  (shader, emit (.glCreateShader type) { g with shaders := register shader g.shaders })

def glShaderSource (shader : Nat) (source : String) (g : GLState) : GLState :=
  emit (.glShaderSource shader source) g

def glCompileShader (shader : Nat) (g : GLState) : GLState :=
  emit (.glCompileShader shader) g

def glGetShaderiv (D : Driver) (shader pname : Nat) (g : GLState) : Int × GLState :=
  (D.getShaderiv g shader pname, emit (.glGetShaderiv shader pname) g)

/-- The construction `std::vector<GLchar> infoLog(infoLogLength)` (lines 31 and
79): the `GLint` is converted to the unsigned size, so a negative length is a
size beyond `max_size()`; the characters of a new vector are zero. -/
def newInfoLog (D : Driver) (infoLogLength : Int) : Except Exception (List Char) :=
  if infoLogLength < 0 then .error .length_error
  else if D.allocates infoLogLength.toNat then .ok (List.replicate infoLogLength.toNat NUL)
  else .error .bad_alloc

/-- What `glGetShaderInfoLog` and `glGetProgramInfoLog` leave in a buffer of
`bufSize` characters when the log is `text`: as much of the text as fits
before a closing zero character; nothing for a buffer of size 0. -/
def writeInfoLog (text : String) (bufSize : Nat) (buffer : List Char) : List Char :=
  if bufSize = 0 then buffer
  else
    let written := (c_str text).data.take (bufSize - 1) ++ [NUL]
    written ++ buffer.drop written.length

/-- The call `glGetShaderInfoLog(shader, bufSize, NULL, infoLog.data())`: the
buffer after the call, and the state. -/
def glGetShaderInfoLog (D : Driver) (shader bufSize : Nat) (infoLog : List Char)
    (g : GLState) : List Char × GLState :=
  (writeInfoLog (D.shaderInfoLog g shader) bufSize infoLog,
    emit (.glGetShaderInfoLog shader bufSize) g)

def glCreateProgram (D : Driver) (g : GLState) : Nat × GLState :=
  let program := D.createProgram g
  (program, emit .glCreateProgram { g with programs := register program g.programs })

/-- An attached shader is only flagged by the driver and goes with its
program; here it counts as deleted at once. -/
def glDeleteShader (shader : Nat) (g : GLState) : GLState :=
  emit (.glDeleteShader shader) { g with shaders := release shader g.shaders }

def glDeleteProgram (program : Nat) (g : GLState) : GLState :=
  emit (.glDeleteProgram program) { g with programs := release program g.programs }

def glAttachShader (program shader : Nat) (g : GLState) : GLState :=
  emit (.glAttachShader program shader) g

def glLinkProgram (program : Nat) (g : GLState) : GLState :=
  emit (.glLinkProgram program) g

def glGetProgramiv (D : Driver) (program pname : Nat) (g : GLState) : Int × GLState :=
  (D.getProgramiv g program pname, emit (.glGetProgramiv program pname) g)

/-- The call `glGetProgramInfoLog(program, bufSize, NULL, infoLog.data())`: the
buffer after the call, and the state. -/
def glGetProgramInfoLog (D : Driver) (program bufSize : Nat) (infoLog : List Char)
    (g : GLState) : List Char × GLState :=
  (writeInfoLog (D.programInfoLog g program) bufSize infoLog,
    emit (.glGetProgramInfoLog program bufSize) g)

def glGetAttribLocation (D : Driver) (program : Nat) (name : String) (g : GLState) :
    Int × GLState :=
  (D.attribLocation g program name, emit (.glGetAttribLocation program name) g)

def glGetUniformLocation (D : Driver) (program : Nat) (name : String) (g : GLState) :
    Int × GLState :=
  (D.uniformLocation g program name, emit (.glGetUniformLocation program name) g)

/-- The call `glGenBuffers(1, &buffer)`: the new name and the state. -/
def glGenBuffers (D : Driver) (g : GLState) : Nat × GLState :=
  let buffer := D.genBuffer g
  (buffer, emit (.glGenBuffers 1) { g with buffers := g.buffers ++ [buffer] })

def glBindBuffer (target buffer : Nat) (g : GLState) : GLState :=
  emit (.glBindBuffer target buffer) g

def glBufferData (target size : Nat) (data : List Int) (usage : Nat) (g : GLState) : GLState :=
  emit (.glBufferData target size data usage) g

/-- The call `glDeleteBuffers(1, &buffer)`. -/
def glDeleteBuffers (buffer : Nat) (g : GLState) : GLState :=
  emit (.glDeleteBuffers 1 buffer) { g with buffers := release buffer g.buffers }

def glEnable (cap : Nat) (g : GLState) : GLState := emit (.glEnable cap) g

def glClear (mask : Nat) (g : GLState) : GLState := emit (.glClear mask) g

def glUseProgram (program : Nat) (g : GLState) : GLState := emit (.glUseProgram program) g

def glActiveTexture (texture : Nat) (g : GLState) : GLState := emit (.glActiveTexture texture) g

def glBindTexture (target texture : Nat) (g : GLState) : GLState :=
  emit (.glBindTexture target texture) g

def glUniform1i (location v0 : Int) (g : GLState) : GLState := emit (.glUniform1i location v0) g

def glEnableVertexAttribArray (index : Nat) (g : GLState) : GLState :=
  emit (.glEnableVertexAttribArray index) g

def glVertexAttribPointer (index : Nat) (size : Int) (type normalized : Nat) (stride : Int)
    (pointer : Nat) (g : GLState) : GLState :=
  emit (.glVertexAttribPointer index size type normalized stride pointer) g

def glUniformMatrix4fv (location count : Int) (transpose : Nat) (value : MatExpr)
    (g : GLState) : GLState :=
  emit (.glUniformMatrix4fv location count transpose value) g

def glUniform3fv (location count : Int) (value : List FloatExpr) (g : GLState) : GLState :=
  emit (.glUniform3fv location count value) g

def glUniform1fv (location count : Int) (value : List FloatExpr) (g : GLState) : GLState :=
  emit (.glUniform1fv location count value) g

def glDrawElements (mode : Nat) (count : Int) (type pointer : Nat) (g : GLState) : GLState :=
  emit (.glDrawElements mode count type pointer) g

def glViewport (x y width height : Int) (g : GLState) : GLState :=
  emit (.glViewport x y width height) g

/-- The call `glGenTextures(1, &textureId)`: the new name and the state. -/
def glGenTextures (D : Driver) (g : GLState) : Nat × GLState :=
  let texture := D.genTexture g
  (texture, emit (.glGenTextures 1) { g with textures := g.textures ++ [texture] })

def glTexParameteri (target pname : Nat) (param : Int) (g : GLState) : GLState :=
  emit (.glTexParameteri target pname param) g

def glTexImage2D (target : Nat) (level internalformat width height border : Int)
    (format type : Nat) (pixels : List Nat) (g : GLState) : GLState :=
  emit (.glTexImage2D target level internalformat width height border format type pixels) g

/-! ## Shader compilation -/

/-- `CompileShader` (SimpleRenderer.cpp, lines 15-41): the shader name, or the
exception thrown, and the driver state left. The driver is handed
`source.c_str()`; the message of the `std::runtime_error` is
`errorMessage.c_str()`. -/
def CompileShader (D : Driver) (type : Nat) (source : String) (g : GLState) :
    Except Exception Nat × GLState :=
  let (shader, g) := glCreateShader D type g
  let g := glShaderSource shader (c_str source) g
  let g := glCompileShader shader g
  let (compileResult, g) := glGetShaderiv D shader GL_COMPILE_STATUS g
  if compileResult = 0 then
    let (infoLogLength, g) := glGetShaderiv D shader GL_INFO_LOG_LENGTH g
    match newInfoLog D infoLogLength with
    | .error e => (.error e, g)
    | .ok infoLog =>
      let (infoLog, g) := glGetShaderInfoLog D shader infoLog.length infoLog g
      let errorMessage := "Shader compilation failed: " ++ String.mk infoLog
      (.error (.runtime_error (c_str errorMessage)), g)
  else
    (.ok shader, g)

/-- `CompileProgram` (SimpleRenderer.cpp, lines 43-89). -/
def CompileProgram (D : Driver) (vsSource fsSource : String) (g : GLState) :
    Except Exception Nat × GLState :=
  let (program, g) := glCreateProgram D g
  if program = 0 then
    (.error (.runtime_error "Program creation failed"), g)
  else
    match CompileShader D GL_VERTEX_SHADER vsSource g with
    | (.error e, g) => (.error e, g)
    | (.ok vs, g) =>
      match CompileShader D GL_FRAGMENT_SHADER fsSource g with
      | (.error e, g) => (.error e, g)
      | (.ok fs, g) =>
        if vs = 0 ∨ fs = 0 then
          let g := glDeleteShader fs g
          let g := glDeleteShader vs g
          let g := glDeleteProgram program g
          (.ok 0, g)
        else
          let g := glAttachShader program vs g
          let g := glDeleteShader vs g
          let g := glAttachShader program fs g
          let g := glDeleteShader fs g
          let g := glLinkProgram program g
          let (linkStatus, g) := glGetProgramiv D program GL_LINK_STATUS g
          if linkStatus = 0 then
            let (infoLogLength, g) := glGetProgramiv D program GL_INFO_LOG_LENGTH g
            match newInfoLog D infoLogLength with
            | .error e => (.error e, g)
            | .ok infoLog =>
              let (infoLog, g) := glGetProgramInfoLog D program infoLog.length infoLog g
              let errorMessage := "Program link failed: " ++ String.mk infoLog
              (.error (.runtime_error (c_str errorMessage)), g)
          else
            (.ok program, g)

/-! ## The cube -/

/-- The array `vertexPositions` (lines 167-193); every literal is a whole
number. -/
def vertexPositions : List Int :=
  [-1, 1, 1,
    1, 1, 1,
    1, 1, -1,
   -1, 1, -1,
   -1, 1, -1,
    1, 1, -1,
    1, -1, -1,
   -1, -1, -1,
    1, 1, -1,
    1, 1, 1,
    1, -1, 1,
    1, -1, -1,
   -1, 1, 1,
   -1, 1, -1,
   -1, -1, -1,
   -1, -1, 1,
    1, 1, 1,
   -1, 1, 1,
   -1, -1, 1,
    1, -1, 1,
    1, -1, -1,
   -1, -1, -1,
   -1, -1, 1,
    1, -1, 1]

/-- The array `vertexColors` (lines 199-225). -/
def vertexColors : List Int :=
  [0, 1, 0,
   0, 1, 0,
   0, 1, 0,
   0, 1, 0,
   0, 0, -1,
   0, 0, -1,
   0, 0, -1,
   0, 0, -1,
   1, 0, 0,
   1, 0, 0,
   1, 0, 0,
   1, 0, 0,
   -1, 0, 0,
   -1, 0, 0,
   -1, 0, 0,
   -1, 0, 0,
   0, 0, 1,
   0, 0, 1,
   0, 0, 1,
   0, 0, 1,
   0, -1, 0,
   0, -1, 0,
   0, -1, 0,
   0, -1, 0]

/-- The array `textureCoords` (lines 231-257). -/
def textureCoords : List Int :=
  [0, 1,
   1, 1,
   1, 0,
   0, 0,
   0, 1,
   1, 1,
   1, 0,
   0, 0,
   0, 1,
   1, 1,
   1, 0,
   0, 0,
   0, 1,
   1, 1,
   1, 0,
   0, 0,
   0, 1,
   1, 1,
   1, 0,
   0, 0,
   0, 1,
   1, 1,
   1, 0,
   0, 0]

/-- The array `indices` (lines 263-271), of type `short`. -/
def indices : List Int :=
  [0, 1, 2, 0, 2, 3,
   4, 5, 6, 4, 6, 7,
   8, 9, 10, 8, 10, 11,
   12, 13, 14, 12, 14, 15,
   16, 17, 18, 16, 18, 19,
   20, 22, 21, 20, 23, 22]

/-- The size in bytes of a `GLfloat`. -/
def sizeofGLfloat : Nat := 4

/-- The size in bytes of a `short`. -/
def sizeofShort : Nat := 2

/-- The count `(6 * 2) * 3` that `Draw` passes to `glDrawElements`. -/
def drawElementsCount : Int := (6 * 2) * 3

/-- The vertex shader text `vs` of the constructor (lines 98-118), character
for character. -/
def vsSource : String :=
"
        uniform mat4 uModelMatrix;
        uniform mat4 uViewMatrix;
        uniform mat4 uProjMatrix;
        attribute vec4 aPosition;
        attribute vec4 aColor;
\t\tattribute vec2 aTexCoord;
\t\tvarying vec2 vTexCoord;
        varying vec4 vColor;
\t\tvarying vec3 positionWorld;
        varying vec3 normalWorld;
        void main()
        \x7b
            gl_Position = uProjMatrix * uViewMatrix * uModelMatrix * aPosition;
\t\t\tvec4 normal = vec4(aColor.x, aColor.y, aColor.z, 0.0);
\t\t\tnormalWorld = normalize(vec3(uModelMatrix * normal)); //normal = normalModel
\t\t\tpositionWorld = vec3(uModelMatrix * aPosition); //aPositon = positionModel
            vColor = aColor;
\t\t\tvTexCoord = aTexCoord;
        \x7d
    "

/-- The fragment shader text `fs` of the constructor (lines 121-152),
character for character. -/
def fsSource : String :=
"
        precision mediump float;
\t\tuniform sampler2D OurTexture;
\t\tuniform sampler2D normalMap;
        uniform vec3 lightPosition;
\t\tuniform vec3 eyePosition;
\t\tuniform float ambient;
        varying vec4 vColor;
\t\tvarying vec2 vTexCoord;
\t\tvarying vec3 positionWorld;
        varying vec3 normalWorld;
        void main()
        \x7b
\t\t\tvec4 normalColor = texture2D(normalMap, vTexCoord);
\t\t\tvec3 normal = vec3(normalColor.r*2.0-1.0,0.0,normalColor.g*2.0-1.0);

\t\t\tvec3 r = lightPosition - positionWorld;
\t\t\tvec3 lightVector = normalize(r);

\t\t\t//specular:
\t\t\tvec3 reflectedLightVector = -reflect(lightVector,normalize(normalWorld+normal));
\t\t\tvec3 eyeDirection = normalize(eyePosition - positionWorld);
\t\t\tfloat product = dot(reflectedLightVector, eyeDirection);
\t\t\tfloat s = clamp(product,0.0,1.0);
\t\t\tfloat len = length(r);
\t\t\tfloat ss = pow(s,20.0)/len;
\t\t\tvec3 light = vec3(ss, ss, ss) + vec3(ambient,ambient,ambient);
\t\t\t//
            //gl_FragColor = vColor;
            gl_FragColor = texture2D(OurTexture, vTexCoord) * vec4(light.x,light.y,light.z, 1.0);
        \x7d
    "

/-! ## The renderer -/

/-- The fields of `class SimpleRenderer` (SimpleRenderer.h). -/
structure SimpleRenderer where
  textureVec : List Nat
  mProgram : Nat
  mWindowWidth : Int
  mWindowHeight : Int
  mPositionAttribLocation : Int
  mColorAttribLocation : Int
  mTextureAttribLocation : Int
  mModelUniformLocation : Int
  mViewUniformLocation : Int
  mProjUniformLocation : Int
  lightPositionUniformLocation : Int
  eyePositionUniformLocation : Int
  ambientUniformLocation : Int
  mVertexPositionBuffer : Nat
  mVertexColorBuffer : Nat
  mTextureCoordsBuffer : Nat
  mIndexBuffer : Nat
  mDrawCount : Int
  deriving DecidableEq, Repr

/-- The constructor `SimpleRenderer::SimpleRenderer` (lines 91-276): the
renderer built, or the exception that `CompileProgram` threw, and the driver
state left. -/
def SimpleRenderer.ctor (D : Driver) (g : GLState) :
    Except Exception SimpleRenderer × GLState :=
  match CompileProgram D vsSource fsSource g with
  | (.error e, g) => (.error e, g)
  | (.ok mProgram, g) =>
    let (mPositionAttribLocation, g) := glGetAttribLocation D mProgram "aPosition" g
    let (mColorAttribLocation, g) := glGetAttribLocation D mProgram "aColor" g
    let (mTextureAttribLocation, g) := glGetAttribLocation D mProgram "aTexCoord" g
    let (mModelUniformLocation, g) := glGetUniformLocation D mProgram "uModelMatrix" g
    let (mViewUniformLocation, g) := glGetUniformLocation D mProgram "uViewMatrix" g
    let (mProjUniformLocation, g) := glGetUniformLocation D mProgram "uProjMatrix" g
    let (lightPositionUniformLocation, g) := glGetUniformLocation D mProgram "lightPosition" g
    let (eyePositionUniformLocation, g) := glGetUniformLocation D mProgram "eyePosition" g
    let (ambientUniformLocation, g) := glGetUniformLocation D mProgram "ambient" g
    let (mVertexPositionBuffer, g) := glGenBuffers D g
    let g := glBindBuffer GL_ARRAY_BUFFER mVertexPositionBuffer g
    let g := glBufferData GL_ARRAY_BUFFER (sizeofGLfloat * vertexPositions.length)
      vertexPositions GL_STATIC_DRAW g
    let (mVertexColorBuffer, g) := glGenBuffers D g
    let g := glBindBuffer GL_ARRAY_BUFFER mVertexColorBuffer g
    let g := glBufferData GL_ARRAY_BUFFER (sizeofGLfloat * vertexColors.length)
      vertexColors GL_STATIC_DRAW g
    let (mTextureCoordsBuffer, g) := glGenBuffers D g
    let g := glBindBuffer GL_ARRAY_BUFFER mTextureCoordsBuffer g
    let g := glBufferData GL_ARRAY_BUFFER (sizeofGLfloat * textureCoords.length)
      textureCoords GL_STATIC_DRAW g
    let (mIndexBuffer, g) := glGenBuffers D g
    let g := glBindBuffer GL_ELEMENT_ARRAY_BUFFER mIndexBuffer g
    let g := glBufferData GL_ELEMENT_ARRAY_BUFFER (sizeofShort * indices.length)
      indices GL_STATIC_DRAW g
    (.ok
      { textureVec := []
        mProgram := mProgram
        mWindowWidth := 0
        mWindowHeight := 0
        mPositionAttribLocation := mPositionAttribLocation
        mColorAttribLocation := mColorAttribLocation
        mTextureAttribLocation := mTextureAttribLocation
        mModelUniformLocation := mModelUniformLocation
        mViewUniformLocation := mViewUniformLocation
        mProjUniformLocation := mProjUniformLocation
        lightPositionUniformLocation := lightPositionUniformLocation
        eyePositionUniformLocation := eyePositionUniformLocation
        ambientUniformLocation := ambientUniformLocation
        mVertexPositionBuffer := mVertexPositionBuffer
        mVertexColorBuffer := mVertexColorBuffer
        mTextureCoordsBuffer := mTextureCoordsBuffer
        mIndexBuffer := mIndexBuffer
        mDrawCount := 0 }, g)

/-- The destructor `SimpleRenderer::~SimpleRenderer` (lines 278-309). -/
def SimpleRenderer.dtor (r : SimpleRenderer) (g : GLState) : SimpleRenderer × GLState :=
  let (r, g) :=
    if r.mProgram ≠ 0 then ({ r with mProgram := 0 }, glDeleteProgram r.mProgram g) else (r, g)
  let (r, g) :=
    if r.mVertexPositionBuffer ≠ 0 then
      ({ r with mVertexPositionBuffer := 0 }, glDeleteBuffers r.mVertexPositionBuffer g)
    else (r, g)
  let (r, g) :=
    if r.mVertexColorBuffer ≠ 0 then
      ({ r with mVertexColorBuffer := 0 }, glDeleteBuffers r.mVertexColorBuffer g)
    else (r, g)
  let (r, g) :=
    if r.mTextureCoordsBuffer ≠ 0 then
      ({ r with mTextureCoordsBuffer := 0 }, glDeleteBuffers r.mTextureCoordsBuffer g)
    else (r, g)
  let (r, g) :=
    if r.mIndexBuffer ≠ 0 then
      ({ r with mIndexBuffer := 0 }, glDeleteBuffers r.mIndexBuffer g)
    else (r, g)
  (r, g)

/-- `SimpleRenderer::Draw` (lines 311-365). `none` stands for the undefined
behaviour of reading `textureVec[0]` or `textureVec[1]` past the end of the
vector. -/
def SimpleRenderer.Draw (D : Driver) (r : SimpleRenderer) (g : GLState) :
    Option (SimpleRenderer × GLState) :=
  let g := glEnable GL_DEPTH_TEST g
  let g := glClear (GL_COLOR_BUFFER_BIT ||| GL_DEPTH_BUFFER_BIT) g
  if r.mProgram = 0 then
    some (r, g)
  else
    let g := glUseProgram r.mProgram g
    let g := glActiveTexture GL_TEXTURE0 g
    match r.textureVec[0]? with
    | none => none
    | some texture0 =>
      let g := glBindTexture GL_TEXTURE_2D texture0 g
      let (ourTextureLocation, g) := glGetUniformLocation D r.mProgram "OurTexture" g
      let g := glUniform1i ourTextureLocation 0 g
      let g := glActiveTexture (GL_TEXTURE0 + 1) g
      match r.textureVec[1]? with
      | none => none
      | some texture1 =>
        let g := glBindTexture GL_TEXTURE_2D texture1 g
        let (normalMapLocation, g) := glGetUniformLocation D r.mProgram "normalMap" g
        let g := glUniform1i normalMapLocation 1 g
        let g := glBindBuffer GL_ARRAY_BUFFER r.mVertexPositionBuffer g
        let g := glEnableVertexAttribArray (toGLuint r.mPositionAttribLocation) g
        let g := glVertexAttribPointer (toGLuint r.mPositionAttribLocation) 3 GL_FLOAT GL_FALSE
          0 0 g
        let g := glBindBuffer GL_ARRAY_BUFFER r.mVertexColorBuffer g
        let g := glEnableVertexAttribArray (toGLuint r.mColorAttribLocation) g
        let g := glVertexAttribPointer (toGLuint r.mColorAttribLocation) 3 GL_FLOAT GL_FALSE
          0 0 g
        let g := glBindBuffer GL_ARRAY_BUFFER r.mTextureCoordsBuffer g
        let g := glEnableVertexAttribArray (toGLuint r.mTextureAttribLocation) g
        let g := glVertexAttribPointer (toGLuint r.mTextureAttribLocation) 2 GL_FLOAT GL_FALSE
          0 0 g
        let modelMatrix := MatExpr.SimpleModelMatrix (.div (.ofInt r.mDrawCount) (.lit 50 1))
        let g := glUniformMatrix4fv r.mModelUniformLocation 1 GL_FALSE modelMatrix g
        let viewMatrix := MatExpr.SimpleViewMatrix
        let g := glUniformMatrix4fv r.mViewUniformLocation 1 GL_FALSE viewMatrix g
        let projectionMatrix :=
          MatExpr.SimpleProjectionMatrix (.div (.ofInt r.mWindowWidth) (.ofInt r.mWindowHeight))
        let g := glUniformMatrix4fv r.mProjUniformLocation 1 GL_FALSE projectionMatrix g
        let lightPosition := vector3 (.lit 0 1) (.lit 2 1) (.lit 0 1)
        let g := glUniform3fv r.lightPositionUniformLocation 1 lightPosition g
        let eyePosition := vector3 (.lit 0 1) (.lit 433 100) (.lit 25 10)
        let g := glUniform3fv r.eyePositionUniformLocation 1 eyePosition g
        let (ambientUniformLocation, g) := glGetUniformLocation D r.mProgram "ambient" g
        let ambient := FloatExpr.lit 3 10
        let g := glUniform1fv ambientUniformLocation 1 [ambient] g
        let g := glBindBuffer GL_ELEMENT_ARRAY_BUFFER r.mIndexBuffer g
        let g := glDrawElements GL_TRIANGLES drawElementsCount GL_UNSIGNED_SHORT 0 g
        some ({ r with mDrawCount := wrapInt32 (r.mDrawCount + 1) }, g)

/-- `SimpleRenderer::UpdateWindowSize` (lines 367-372). -/
def SimpleRenderer.UpdateWindowSize (r : SimpleRenderer) (width height : Int) (g : GLState) :
    SimpleRenderer × GLState :=
  let g := glViewport 0 0 width height g
  ({ r with mWindowWidth := width, mWindowHeight := height }, g)

/-- What the reference parameter `GLuint& textureId` of `sendTextureToOpenGL`
refers to: a variable outside the renderer, or the element `textureVec[i]` of
the public texture list (the other fields of the renderer are private). -/
inductive TextureRef where
  | outside
  | element (i : Nat)
  deriving DecidableEq, Repr

/-- The reference refers to an object: `textureVec[i]` exists. -/
def TextureRef.inRange : TextureRef → SimpleRenderer → Bool
  | .outside, _ => true
  | .element i, r => decide (i < r.textureVec.length)

/-- `SimpleRenderer::sendTextureToOpenGL` (lines 374-392): the value left in
the object that `textureId` refers to, the renderer and the driver state;
`none` when the reference is to an element that `textureVec` does not have
(undefined behaviour of the caller). `glGenTextures(1, &textureId)` writes the
new name through the reference, into the texture list when the reference is
an element of it; the calls after it read the name back. -/
def SimpleRenderer.sendTextureToOpenGL (D : Driver) (r : SimpleRenderer) (pdata : List Nat)
    (textureId : TextureRef) (g : GLState) : Option (Nat × SimpleRenderer × GLState) :=
  if textureId.inRange r then
    let (name, g) := glGenTextures D g
    let r :=
      match textureId with
      | .outside => r
      | .element i => { r with textureVec := r.textureVec.set i name }
    let g := glBindTexture GL_TEXTURE_2D name g
    let g := glTexParameteri GL_TEXTURE_2D GL_TEXTURE_WRAP_S GL_REPEAT g
    let g := glTexParameteri GL_TEXTURE_2D GL_TEXTURE_WRAP_T GL_REPEAT g
    let g := glTexParameteri GL_TEXTURE_2D GL_TEXTURE_MIN_FILTER GL_LINEAR g
    let g := glTexParameteri GL_TEXTURE_2D GL_TEXTURE_MAG_FILTER GL_LINEAR g
    let g := glTexImage2D GL_TEXTURE_2D 0 GL_RGB 1024 1024 0 GL_RGB GL_UNSIGNED_BYTE pdata g
    let g := glBindTexture GL_TEXTURE_2D 0 g
    some (name, r, g)
  else none

/-! ## Sequences of calls -/

/-- `n` calls of `Draw` in a row. -/
def drawN (D : Driver) : Nat → SimpleRenderer × GLState → Option (SimpleRenderer × GLState)
  | 0, s => some s
  | n + 1, s => (drawN D n s).bind (fun s1 => SimpleRenderer.Draw D s1.1 s1.2)

/-- What the platform shell does with a renderer between construction and
destruction: the three methods, and `textureVec.push_back(id)` on the public
texture list. -/
inductive Op where
  | Draw
  | UpdateWindowSize (width height : Int)
  | sendTextureToOpenGL (pdata : List Nat) (textureId : TextureRef)
  | push_back (id : Nat)
  deriving DecidableEq, Repr

/-- One operation; `none` when `Draw` reads past the end of `textureVec`, or
when the reference handed to `sendTextureToOpenGL` is to an element that
`textureVec` does not have. -/
def step (D : Driver) (op : Op) (s : SimpleRenderer × GLState) :
    Option (SimpleRenderer × GLState) :=
  match op with
  | .Draw => SimpleRenderer.Draw D s.1 s.2
  | .UpdateWindowSize width height => some (s.1.UpdateWindowSize width height s.2)
  | .sendTextureToOpenGL pdata textureId =>
    (SimpleRenderer.sendTextureToOpenGL D s.1 pdata textureId s.2).map (fun out => out.2)
  | .push_back id => some ({ s.1 with textureVec := s.1.textureVec ++ [id] }, s.2)

/-- The operations of a list, one after the other. -/
def runOps (D : Driver) : List Op → SimpleRenderer × GLState → Option (SimpleRenderer × GLState)
  | [], s => some s
  | op :: ops, s => (step D op s).bind (runOps D ops)

/-- The number of texture uploads in a list of operations. -/
def uploads : List Op → Nat
  | [] => 0
  | .sendTextureToOpenGL _ _ :: ops => uploads ops + 1
  | _ :: ops => uploads ops

/-- Construct a renderer, run the operations, destroy it: the renderer as
constructed and the driver state at the end; `none` when the constructor
throws or a `Draw` reads past the end of `textureVec`. -/
def lifecycle (D : Driver) (g0 : GLState) (ops : List Op) : Option (SimpleRenderer × GLState) :=
  match SimpleRenderer.ctor D g0 with
  | (.error _, _) => none
  | (.ok r, g1) =>
    match runOps D ops (r, g1) with
    | none => none
    | some (r2, g2) => some (r, (SimpleRenderer.dtor r2 g2).2)

/-- The call `CompileShader(GL_VERTEX_SHADER, vsSource)` of `CompileProgram`
(line 52), made once the program has been created. -/
def vertexStage (D : Driver) (vsSrc : String) (g : GLState) :
    Except Exception Nat × GLState :=
  CompileShader D GL_VERTEX_SHADER vsSrc (glCreateProgram D g).2

/-- The call `CompileShader(GL_FRAGMENT_SHADER, fsSource)` of `CompileProgram`
(line 53), made in the state the vertex stage left. -/
def fragmentStage (D : Driver) (vsSrc fsSrc : String) (g : GLState) :
    Except Exception Nat × GLState :=
  CompileShader D GL_FRAGMENT_SHADER fsSrc (vertexStage D vsSrc g).2

/-- The driver state in which `CompileProgram` asks for the link status (line
72), the shaders being `vs` and `fs`. -/
def linkState (D : Driver) (vsSrc fsSrc : String) (g : GLState) (vs fs : Nat) : GLState :=
  glLinkProgram (D.createProgram g) (glDeleteShader fs (glAttachShader (D.createProgram g) fs
    (glDeleteShader vs (glAttachShader (D.createProgram g) vs (fragmentStage D vsSrc fsSrc g).2))))

/-- The driver state in which `CompileShader` asks for the compile status
(line 24). -/
def compileState (D : Driver) (type : Nat) (source : String) (g : GLState) : GLState :=
  glCompileShader (D.createShader g type)
    (glShaderSource (D.createShader g type) (c_str source) (glCreateShader D type g).2)

/-- The compile status that `CompileShader` reads (line 24). -/
def compileStatus (D : Driver) (type : Nat) (source : String) (g : GLState) : Int :=
  (glGetShaderiv D (D.createShader g type) GL_COMPILE_STATUS (compileState D type source g)).1

/-- The info-log length that `CompileShader` reads (line 29). -/
def shaderLogLength (D : Driver) (type : Nat) (source : String) (g : GLState) : Int :=
  (glGetShaderiv D (D.createShader g type) GL_INFO_LOG_LENGTH
    (glGetShaderiv D (D.createShader g type) GL_COMPILE_STATUS
      (compileState D type source g)).2).1

/-- The info log of the shader when `CompileShader` fetches it (line 32). -/
def shaderLog (D : Driver) (type : Nat) (source : String) (g : GLState) : String :=
  D.shaderInfoLog
    (glGetShaderiv D (D.createShader g type) GL_INFO_LOG_LENGTH
      (glGetShaderiv D (D.createShader g type) GL_COMPILE_STATUS
        (compileState D type source g)).2).2
    (D.createShader g type)

/-- The link status that `CompileProgram` reads (line 72). -/
def linkStatus (D : Driver) (vsSrc fsSrc : String) (g : GLState) (vs fs : Nat) : Int :=
  (glGetProgramiv D (D.createProgram g) GL_LINK_STATUS (linkState D vsSrc fsSrc g vs fs)).1

/-- The info-log length that `CompileProgram` reads (line 77). -/
def programLogLength (D : Driver) (vsSrc fsSrc : String) (g : GLState) (vs fs : Nat) : Int :=
  (glGetProgramiv D (D.createProgram g) GL_INFO_LOG_LENGTH
    (glGetProgramiv D (D.createProgram g) GL_LINK_STATUS
      (linkState D vsSrc fsSrc g vs fs)).2).1

/-- The info log of the program when `CompileProgram` fetches it (line 80). -/
def programLog (D : Driver) (vsSrc fsSrc : String) (g : GLState) (vs fs : Nat) : String :=
  D.programInfoLog
    (glGetProgramiv D (D.createProgram g) GL_INFO_LOG_LENGTH
      (glGetProgramiv D (D.createProgram g) GL_LINK_STATUS
        (linkState D vsSrc fsSrc g vs fs)).2).2
    (D.createProgram g)

/-- The driver state after the eight calls of `sendTextureToOpenGL`. -/
def uploadState (D : Driver) (pdata : List Nat) (g : GLState) : GLState :=
  glBindTexture GL_TEXTURE_2D 0
    (glTexImage2D GL_TEXTURE_2D 0 GL_RGB 1024 1024 0 GL_RGB GL_UNSIGNED_BYTE pdata
      (glTexParameteri GL_TEXTURE_2D GL_TEXTURE_MAG_FILTER GL_LINEAR
        (glTexParameteri GL_TEXTURE_2D GL_TEXTURE_MIN_FILTER GL_LINEAR
          (glTexParameteri GL_TEXTURE_2D GL_TEXTURE_WRAP_T GL_REPEAT
            (glTexParameteri GL_TEXTURE_2D GL_TEXTURE_WRAP_S GL_REPEAT
              (glBindTexture GL_TEXTURE_2D (D.genTexture g) (glGenTextures D g).2))))))

/-- The message that goes with a log `text` when the length read is
`infoLogLength`: `head`, then the text as far as a buffer of that length
holds it. -/
def infoLogMessage (head text : String) (infoLogLength : Int) : String :=
  head ++ String.mk ((c_str text).data.take (infoLogLength.toNat - 1))

/-! ## Vocabulary of the statements -/

/-- Vertex `i` of a table of three floats per vertex. -/
def vertexAt (table : List Int) (i : Nat) : Int × Int × Int :=
  (table.getD (3 * i) 0, table.getD (3 * i + 1) 0, table.getD (3 * i + 2) 0)

/-- The three vertex numbers of triangle `k` of the index table. -/
def triangleAt (k : Nat) : Nat × Nat × Nat :=
  ((indices.getD (3 * k) 0).toNat, (indices.getD (3 * k + 1) 0).toNat,
    (indices.getD (3 * k + 2) 0).toNat)

def dot (u v : Int × Int × Int) : Int := u.1 * v.1 + u.2.1 * v.2.1 + u.2.2 * v.2.2

def cross (u v : Int × Int × Int) : Int × Int × Int :=
  (u.2.1 * v.2.2 - u.2.2 * v.2.1, u.2.2 * v.1 - u.1 * v.2.2, u.1 * v.2.1 - u.2.1 * v.1)

def vsub (u v : Int × Int × Int) : Int × Int × Int := (u.1 - v.1, u.2.1 - v.2.1, u.2.2 - v.2.2)

def vscale (c : Int) (u : Int × Int × Int) : Int × Int × Int := (c * u.1, c * u.2.1, c * u.2.2)

/-- The six signed unit axis vectors. -/
def signedUnitAxes : List (Int × Int × Int) :=
  [(1, 0, 0), (-1, 0, 0), (0, 1, 0), (0, -1, 0), (0, 0, 1), (0, 0, -1)]

/-- The renderer holds the same program and buffer names. -/
def SameHandles (r r1 : SimpleRenderer) : Prop :=
  r1.mProgram = r.mProgram ∧ r1.mVertexPositionBuffer = r.mVertexPositionBuffer ∧
  r1.mVertexColorBuffer = r.mVertexColorBuffer ∧
  r1.mTextureCoordsBuffer = r.mTextureCoordsBuffer ∧ r1.mIndexBuffer = r.mIndexBuffer

/-- From one driver state to the other no program, shader or buffer was
created or deleted, no texture was deleted, and `k` textures were created,
with non-zero names. -/
def Uploaded (k : Nat) (g g1 : GLState) : Prop :=
  g1.programs = g.programs ∧ g1.shaders = g.shaders ∧ g1.buffers = g.buffers ∧
  ∃ handles, g1.textures = g.textures ++ handles ∧ handles.length = k ∧ 0 ∉ handles

/-! ## The projection matrix of `MathHelper.h` -/

/-- One more than the largest name of the list. -/
def freshName (l : List Nat) : Nat := l.foldr max 0 + 1

theorem le_foldr_max (l : List Nat) : ∀ n ∈ l, n ≤ l.foldr max 0 := by
  induction l with
  | nil => intro n hn; cases hn
  | cons a t ih =>
    intro n hn
    rcases List.mem_cons.mp hn with h | h
    · subst h; exact le_max_left _ _
    · exact le_trans (ih n h) (le_max_right _ _)

theorem freshName_not_mem (l : List Nat) : freshName l ∉ l := by
  intro h
  have := le_foldr_max l _ h
  unfold freshName at this
  omega

theorem freshName_ne_zero (l : List Nat) : freshName l ≠ 0 := by
  unfold freshName
  omega

/-- A driver that numbers the objects of each kind 1, 2, 3, ...; program and
shader creation fail (answer `0`) when `programOk`, `shaderOk` are `false`;
the compile status of shader 1 is `vsStatus`, of any other shader `fsStatus`;
the link status is `linkStatus`; the logs are "syntax error" and "link
error", their lengths reported with the closing zero character; the heap
holds every log. -/
def mockDriver (programOk shaderOk : Bool) (vsStatus fsStatus linkStatus : Int) : Driver where
  createProgram g := if programOk then freshName g.programs else 0
  createShader g _ := if shaderOk then freshName g.shaders else 0
  genBuffer g := freshName g.buffers
  genTexture g := freshName g.textures
  getShaderiv _ shader pname :=
    if pname = GL_COMPILE_STATUS then (if shader = 1 then vsStatus else fsStatus) else 13
  shaderInfoLog _ _ := "syntax error"
  getProgramiv _ _ pname := if pname = GL_LINK_STATUS then linkStatus else 11
  programInfoLog _ _ := "link error"
  attribLocation _ _ _ := 0
  uniformLocation _ _ _ := 0
  allocates _ := true
  genBuffer_ne_zero g := freshName_ne_zero g.buffers
  genBuffer_fresh g := freshName_not_mem g.buffers
  genTexture_ne_zero g := freshName_ne_zero g.textures
  genTexture_fresh g := freshName_not_mem g.textures

/-- A driver on which everything succeeds. -/
def okDriver : Driver := mockDriver true true 1 1 1

/-- A driver on which no program can be created. -/
def noProgramDriver : Driver := mockDriver false true 1 1 1

/-- A driver on which no shader object can be created, and the compile status
read for the name 0 is non-zero. -/
def noShaderDriver : Driver := mockDriver true false 1 1 1

/-- A driver on which no shader object can be created, and for the name 0 the
status read is 0 and the length read is -1. -/
def garbageDriver : Driver :=
  { noShaderDriver with
    getShaderiv := fun _ _ pname => if pname = GL_COMPILE_STATUS then 0 else -1 }

/-- A driver on which the vertex shader does not compile. -/
def badVertexDriver : Driver := mockDriver true true 0 1 1

/-- A driver on which the vertex shader does not compile and the length of its
log is reported as 7. -/
def shortLogDriver : Driver :=
  { badVertexDriver with
    getShaderiv := fun _ _ pname => if pname = GL_COMPILE_STATUS then 0 else 7 }

/-- A driver on which the vertex shader does not compile and the heap cannot
hold the log. -/
def noMemoryDriver : Driver := { badVertexDriver with allocates := fun _ => false }

/-- A driver on which the fragment shader does not compile. -/
def badFragmentDriver : Driver := mockDriver true true 1 0 1

/-- A driver on which the program does not link. -/
def badLinkDriver : Driver := mockDriver true true 1 1 0

/-- The driver state before anything was created. -/
def emptyGL : GLState := { programs := [], shaders := [], buffers := [], textures := [], log := [] }

/-- A renderer as the constructor leaves it on `okDriver`, started from
`emptyGL`. -/
def builtRenderer : SimpleRenderer :=
  { textureVec := []
    mProgram := 1
    mWindowWidth := 0
    mWindowHeight := 0
    mPositionAttribLocation := 0
    mColorAttribLocation := 0
    mTextureAttribLocation := 0
    mModelUniformLocation := 0
    mViewUniformLocation := 0
    mProjUniformLocation := 0
    lightPositionUniformLocation := 0
    eyePositionUniformLocation := 0
    ambientUniformLocation := 0
    mVertexPositionBuffer := 1
    mVertexColorBuffer := 2
    mTextureCoordsBuffer := 3
    mIndexBuffer := 4
    mDrawCount := 0 }

/-- The built renderer once the caller has put two texture names in
`textureVec`. -/
def readyRenderer : SimpleRenderer := { builtRenderer with textureVec := [1, 2] }

/-- A renderer whose program is `0`, with no texture. -/
def idleRenderer : SimpleRenderer := { builtRenderer with mProgram := 0 }

/-- Two uploads into variables of the caller, each put in the texture list by
the caller, a resize and two draws. -/
def demoOps : List Op :=
  [.sendTextureToOpenGL [] .outside, .push_back 1, .sendTextureToOpenGL [] .outside,
    .push_back 2,
    .UpdateWindowSize 800 600, .Draw, .Draw]

/-! ## Lemmas: numbers and lists -/

theorem wrapInt32_succ (i : Int) : wrapInt32 (wrapInt32 i + 1) = wrapInt32 (i + 1) := by
  unfold wrapInt32
  omega

theorem wrapInt32_of_lt (n : Nat) (h : n < 2 ^ 31) : wrapInt32 (n : Int) = n := by
  unfold wrapInt32
  omega

theorem mem_release {n m : Nat} {l : List Nat} : n ∈ release m l ↔ n ∈ l ∧ n ≠ m := by
  simp [release]

theorem mem_register {n m : Nat} {l : List Nat} : n ∈ register m l → n ∈ l ∨ n = m := by
  unfold register
  split
  · intro h; exact Or.inl h
  · intro h; simpa using h

theorem takeWhile_append_stop {α : Type} (p : α → Bool) (l r : List α) (a : α)
    (hl : ∀ x ∈ l, p x = true) (ha : p a = false) : (l ++ a :: r).takeWhile p = l := by
  induction l with
  | nil => simp [List.takeWhile, ha]
  | cons x t ih =>
    have hx := hl x (List.mem_cons_self _ _)
    simp [List.takeWhile, hx, ih (fun y hy => hl y (List.mem_cons_of_mem _ hy))]

theorem c_str_data_ne (text : String) : ∀ x ∈ (c_str text).data, (x != NUL) = true := by
  intro x hx
  simp only [c_str] at hx
  exact List.mem_takeWhile_imp (p := fun c => c != NUL) hx

/-- The message thrown for a log `text` read into a new buffer of `n`
characters: the head, then the text as far as the buffer holds it. -/
theorem c_str_message (head text : String) (n : Nat)
    (hh : ∀ x ∈ head.data, (x != NUL) = true) :
    c_str (head ++ String.mk (writeInfoLog text n (List.replicate n NUL))) =
      head ++ String.mk ((c_str text).data.take (n - 1)) := by
  have hbuf : (writeInfoLog text n (List.replicate n NUL)).takeWhile (fun c => c != NUL) =
      (c_str text).data.take (n - 1) := by
    unfold writeInfoLog
    split
    · next h0 =>
      subst h0
      simp
    · simp only [List.append_assoc, List.singleton_append]
      apply takeWhile_append_stop
      · intro x hx
        exact c_str_data_ne text x (List.mem_of_mem_take hx)
      · decide
  apply String.ext
  simp only [c_str, String.data_append]
  rw [List.takeWhile_append_of_pos hh, hbuf]
  rfl

/-- A log without zero character whose length is reported with the closing
zero character is in the message whole. -/
theorem infoLogMessage_full (head text : String) (h : c_str text = text) :
    infoLogMessage head text (text.length + 1) = head ++ text := by
  unfold infoLogMessage
  rw [h]
  have h1 : ((text.length : Int) + 1).toNat - 1 = text.length := by omega
  rw [h1]
  have h2 : text.data.take text.length = text.data := List.take_of_length_le (le_of_eq rfl)
  rw [h2]

/-- The three ways out of the block that reads an info log of reported length
`n` into a new vector and throws (lines 28-37 and 76-85). -/
theorem newInfoLog_cases (D : Driver) (n : Int) :
    (n < 0 ∧ newInfoLog D n = .error .length_error) ∨
    (0 ≤ n ∧ D.allocates n.toNat = false ∧ newInfoLog D n = .error .bad_alloc) ∨
    (0 ≤ n ∧ D.allocates n.toNat = true ∧
      newInfoLog D n = .ok (List.replicate n.toNat NUL)) := by
  unfold newInfoLog
  by_cases h : n < 0
  · exact Or.inl ⟨h, by simp [h]⟩
  · by_cases ha : D.allocates n.toNat = true
    · exact Or.inr (Or.inr ⟨by omega, ha, by simp [h, ha]⟩)
    · have ha1 : D.allocates n.toNat = false := by simpa using ha
      exact Or.inr (Or.inl ⟨by omega, ha1, by simp [h, ha1]⟩)

theorem uploads_cons (op : Op) (ops : List Op) :
    uploads (op :: ops) = uploads [op] + uploads ops := by
  cases op <;> simp [uploads]
  omega

/-! ## Lemmas: binary32 -/

theorem roundNearestEven_intCast (n : Int) : roundNearestEven (n : Rat) = n := by
  simp [roundNearestEven]

theorem abs_roundNearestEven_sub_le (x : Rat) : |(roundNearestEven x : Rat) - x| ≤ 1 / 2 := by
  have h1 := Int.floor_le x
  have h2 := Int.lt_floor_add_one x
  unfold roundNearestEven
  split_ifs with ha hb hc
  · rw [abs_le]; constructor <;> linarith
  · rw [abs_le]; push_cast; constructor <;> linarith
  · rw [abs_le]; constructor <;> linarith
  · rw [abs_le]; push_cast; constructor <;> linarith

theorem ulpBinary32_pos (q : Rat) : 0 < ulpBinary32 q := by
  unfold ulpBinary32
  positivity


theorem roundBinary32_of_int_mul (q : Rat) (m : Int) (hm : q = m * ulpBinary32 q)
    (hq : |q| < 2 ^ 128) : roundBinary32 q = some q := by
  have hu := ulpBinary32_pos q
  have h1 : q / ulpBinary32 q = (m : Rat) := by
    rw [div_eq_iff hu.ne']
    exact hm
  unfold roundBinary32
  simp only [h1, roundNearestEven_intCast]
  rw [← hm]
  simp [hq]

/-- The conversion of a natural number below 2^24 to binary32 is exact. -/
theorem roundBinary32_natCast (n : Nat) (hn : n < 2 ^ 24) :
    roundBinary32 (n : Rat) = some (n : Rat) := by
  have hlt : |(n : Rat)| < 2 ^ 128 := by
    rw [abs_of_nonneg (by positivity)]
    have : (n : Rat) < 2 ^ 24 := by exact_mod_cast hn
    linarith [show (2 : Rat) ^ 24 < 2 ^ 128 by norm_num]
  rcases Nat.eq_zero_or_pos n with h0 | hpos
  · subst h0
    apply roundBinary32_of_int_mul _ 0 _ hlt
    simp
  · have hq : (0 : Rat) < |(n : Rat)| := by positivity
    have hlog0 : 0 ≤ Int.log 2 |(n : Rat)| := by
      rw [← Int.zpow_le_iff_le_log (by norm_num) hq]
      rw [abs_of_nonneg (by positivity)]
      simp only [zpow_zero]
      exact_mod_cast hpos
    have hlog1 : Int.log 2 |(n : Rat)| < 24 := by
      rw [← Int.lt_zpow_iff_log_lt (by norm_num) hq]
      rw [abs_of_nonneg (by positivity)]
      exact_mod_cast hn
    have hu : ulpBinary32 (n : Rat) = 2 ^ (Int.log 2 |(n : Rat)| - 23) := by
      unfold ulpBinary32
      rw [max_eq_left (by omega)]
    obtain ⟨k, hk⟩ : ∃ k : Nat, (k : Int) = 23 - Int.log 2 |(n : Rat)| :=
      ⟨(23 - Int.log 2 |(n : Rat)|).toNat, by omega⟩
    apply roundBinary32_of_int_mul _ ((n : Int) * 2 ^ k) _ hlt
    rw [hu]
    have h2 : Int.log 2 |(n : Rat)| - 23 = -(k : Int) := by omega
    rw [h2]
    push_cast
    rw [zpow_neg, zpow_natCast]
    field_simp

/-- Rounding a positive number in the normal range of binary32 moves it by at
most the fraction 2^-24 of itself. -/
theorem roundBinary32_error (q : Rat) (h1 : (2 : Rat) ^ (-126 : Int) ≤ q) (h2 : q < 2 ^ 127) :
    ∃ r, roundBinary32 q = some r ∧ |r - q| ≤ q / 2 ^ 24 := by
  have hq0 : 0 < q := lt_of_lt_of_le (by positivity) h1
  have habs : |q| = q := abs_of_pos hq0
  have hlog : -126 ≤ Int.log 2 q := by
    rw [← Int.zpow_le_iff_le_log (by norm_num) hq0]
    exact_mod_cast h1
  have hle : ((2 : Nat) : Rat) ^ Int.log 2 q ≤ q := Int.zpow_log_le_self (by norm_num) hq0
  have hu : ulpBinary32 q = 2 ^ (Int.log 2 q - 23) := by
    unfold ulpBinary32
    rw [habs, max_eq_left hlog]
  have hupos := ulpBinary32_pos q
  have hround := abs_roundNearestEven_sub_le (q / ulpBinary32 q)
  have herr : |(roundNearestEven (q / ulpBinary32 q) : Rat) * ulpBinary32 q - q| ≤
      ulpBinary32 q / 2 := by
    have e1 : (roundNearestEven (q / ulpBinary32 q) : Rat) * ulpBinary32 q - q =
        ((roundNearestEven (q / ulpBinary32 q) : Rat) - q / ulpBinary32 q) * ulpBinary32 q := by
      field_simp
    rw [e1, abs_mul, abs_of_pos hupos]
    calc |(roundNearestEven (q / ulpBinary32 q) : Rat) - q / ulpBinary32 q| * ulpBinary32 q
        ≤ 1 / 2 * ulpBinary32 q := mul_le_mul_of_nonneg_right hround hupos.le
      _ = ulpBinary32 q / 2 := by ring
  have hulp : ulpBinary32 q / 2 ≤ q / 2 ^ 24 := by
    rw [hu, zpow_sub₀ (by norm_num)]
    have : (2 : Rat) ^ Int.log 2 q ≤ q := by exact_mod_cast hle
    have h23 : (2 : Rat) ^ (23 : Int) = 2 ^ 23 := by norm_num
    rw [h23]
    rw [div_div, div_le_div_iff₀ (by positivity) (by positivity)]
    nlinarith
  have hfin : |(roundNearestEven (q / ulpBinary32 q) : Rat) * ulpBinary32 q| < 2 ^ 128 := by
    have h3 := le_trans herr hulp
    rw [abs_le] at h3
    rw [abs_lt]
    have h4 : q / 2 ^ 24 ≤ q := div_le_self hq0.le (by norm_num)
    constructor
    · linarith [h3.1]
    · have : (2 : Rat) ^ 127 * 2 = 2 ^ 128 := by norm_num
      linarith [h3.2]
  refine ⟨_, ?_, le_trans herr hulp⟩
  unfold roundBinary32
  simp only [hfin, if_true]

theorem binary32_fifty : FloatExpr.binary32 (.lit 50 1) = some 50 := by
  have h := roundBinary32_natCast 50 (by norm_num)
  simp only [FloatExpr.binary32]
  norm_num at h ⊢
  exact h

/-- The quotient `(float)n / 50.0f` when the conversion of `n` gives `x`. -/
theorem binary32_div_fifty (n : Int) (x : Rat) (hx : roundBinary32 (n : Rat) = some x) :
    FloatExpr.binary32 (.div (.ofInt n) (.lit 50 1)) = roundBinary32 (x / 50) := by
  have h50 := binary32_fifty
  simp only [FloatExpr.binary32] at h50 ⊢
  rw [hx, h50]
  simp

theorem angle_exact (k : Nat) (hk : 50 * k < 2 ^ 24) :
    FloatExpr.binary32 (.div (.ofInt ((50 * k : Nat) : Int)) (.lit 50 1)) = some (k : Rat) := by
  have hx := roundBinary32_natCast (50 * k) hk
  have hx1 : roundBinary32 (((50 * k : Nat) : Int) : Rat) = some ((50 * k : Nat) : Rat) := by
    exact_mod_cast hx
  rw [binary32_div_fifty _ _ hx1]
  have e : (((50 * k : Nat) : Rat)) / 50 = (k : Rat) := by
    push_cast
    field_simp
  rw [e]
  exact roundBinary32_natCast k (by omega)

theorem angle_error (N : Nat) (hN : N < 2 ^ 31) :
    ∃ a, FloatExpr.binary32 (.div (.ofInt (N : Int)) (.lit 50 1)) = some a ∧
      |a - (N : Rat) / 50| ≤ (N : Rat) / 50 * (1 / 2 ^ 23 + 1 / 2 ^ 48) := by
  rcases Nat.eq_zero_or_pos N with h0 | hpos
  · subst h0
    refine ⟨0, ?_, by simp⟩
    have := angle_exact 0 (by norm_num)
    simpa using this
  · have hN1 : (1 : Rat) ≤ N := by exact_mod_cast hpos
    have hN2 : (N : Rat) < 2 ^ 31 := by exact_mod_cast hN
    obtain ⟨x, hx, hxe⟩ := roundBinary32_error (N : Rat)
      (le_trans (by norm_num) hN1) (lt_trans hN2 (by norm_num))
    rw [abs_le] at hxe
    have hx1 : roundBinary32 (((N : Int)) : Rat) = some x := by exact_mod_cast hx
    have hq1 : (2 : Rat) ^ (-126 : Int) ≤ x / 50 := by
      have : (2 : Rat) ^ (-126 : Int) ≤ 1 / 100 := by
        rw [zpow_neg]
        norm_num
      have h3 : (N : Rat) / 2 ^ 24 ≤ (N : Rat) / 2 := by
        apply div_le_div_of_nonneg_left <;> norm_num
      linarith
    have hq2 : x / 50 < 2 ^ 127 := by
      have h3 : (N : Rat) / 2 ^ 24 ≤ N := div_le_self (by linarith) (by norm_num)
      have : x < 2 ^ 127 * 50 := by
        have : (2 : Rat) ^ 32 < 2 ^ 127 * 50 := by norm_num
        have : (2 : Rat) ^ 31 * 2 = 2 ^ 32 := by norm_num
        linarith
      rw [div_lt_iff₀ (by norm_num)]
      exact this
    obtain ⟨a, ha, hae⟩ := roundBinary32_error (x / 50) hq1 hq2
    refine ⟨a, by rw [binary32_div_fifty _ _ hx1, ha], ?_⟩
    rw [abs_le] at hae ⊢
    have e1 : x / 50 / 2 ^ 24 ≤ (N : Rat) / 50 * (1 / 2 ^ 24 + 1 / 2 ^ 48) := by
      have : x ≤ (N : Rat) * (1 + 1 / 2 ^ 24) := by linarith
      calc x / 50 / 2 ^ 24 ≤ (N : Rat) * (1 + 1 / 2 ^ 24) / 50 / 2 ^ 24 := by
            gcongr
        _ = (N : Rat) / 50 * (1 / 2 ^ 24 + 1 / 2 ^ 48) := by ring
    have e2 : (N : Rat) / 50 * (1 / 2 ^ 23 + 1 / 2 ^ 48) =
        (N : Rat) / 50 * (1 / 2 ^ 24 + 1 / 2 ^ 48) + (N : Rat) / 2 ^ 24 / 50 := by ring
    constructor <;> linarith [hae.1, hae.2, hxe.1, hxe.2]

theorem log_one_fiftieth : Int.log 2 |(1 / 50 : Rat)| = -6 := by
  have hpos : (0 : Rat) < |(1 / 50 : Rat)| := by norm_num
  have h1 : (-6 : Int) ≤ Int.log 2 |(1 / 50 : Rat)| := by
    rw [← Int.zpow_le_iff_le_log (by norm_num) hpos]
    rw [zpow_neg]
    norm_num [abs_of_pos]
  have h2 : Int.log 2 |(1 / 50 : Rat)| < -5 := by
    rw [← Int.lt_zpow_iff_log_lt (by norm_num) hpos]
    rw [zpow_neg]
    norm_num [abs_of_pos]
  omega

theorem roundBinary32_one_fiftieth :
    roundBinary32 (1 / 50) = some (5368709 / 268435456) := by
  have hu : ulpBinary32 (1 / 50) = 1 / 536870912 := by
    unfold ulpBinary32
    rw [log_one_fiftieth]
    norm_num [zpow_neg]
  have hfloor : ⌊(268435456 / 25 : Rat)⌋ = 10737418 := by
    rw [Int.floor_eq_iff]
    norm_num
  have hr : roundNearestEven (1 / 50 / (1 / 536870912) : Rat) = 10737418 := by
    have e : (1 / 50 / (1 / 536870912) : Rat) = 268435456 / 25 := by norm_num
    rw [e]
    unfold roundNearestEven
    rw [hfloor]
    norm_num
  unfold roundBinary32
  simp only [hu, hr]
  norm_num [abs_of_pos]

theorem angle_one :
    FloatExpr.binary32 (.div (.ofInt 1) (.lit 50 1)) = some (5368709 / 268435456) := by
  have h1 : roundBinary32 (((1 : Int)) : Rat) = some 1 := by
    have := roundBinary32_natCast 1 (by norm_num)
    simpa using this
  rw [binary32_div_fifty 1 1 h1, roundBinary32_one_fiftieth]

/-! ## Lemmas: `Draw` -/

/-- A `Draw` with a non-zero program and two textures or more: it succeeds,
adds one to the counter (in 32 bits), creates and deletes nothing, and its
calls upload the model matrix of the angle `mDrawCount / 50.0f` and the
projection matrix of the ratio `float(mWindowWidth) / float(mWindowHeight)`,
and no other model or projection matrix. -/
theorem Draw_ready (D : Driver) (r : SimpleRenderer) (g : GLState)
    (hp : r.mProgram ≠ 0) (hlen : 2 ≤ r.textureVec.length) :
    ∃ g1,
      SimpleRenderer.Draw D r g =
        some ({ r with mDrawCount := wrapInt32 (r.mDrawCount + 1) }, g1) ∧
      g1.programs = g.programs ∧ g1.shaders = g.shaders ∧ g1.buffers = g.buffers ∧
      g1.textures = g.textures ∧
      GLCall.glUniformMatrix4fv r.mModelUniformLocation 1 GL_FALSE
        (.SimpleModelMatrix (.div (.ofInt r.mDrawCount) (.lit 50 1))) ∈
          g1.log.drop g.log.length ∧
      (∀ location count transpose radians,
        GLCall.glUniformMatrix4fv location count transpose (.SimpleModelMatrix radians) ∈
          g1.log.drop g.log.length →
        radians = .div (.ofInt r.mDrawCount) (.lit 50 1)) ∧
      GLCall.glUniformMatrix4fv r.mProjUniformLocation 1 GL_FALSE
        (.SimpleProjectionMatrix (.div (.ofInt r.mWindowWidth) (.ofInt r.mWindowHeight))) ∈
          g1.log.drop g.log.length ∧
      (∀ location count transpose aspectRatio,
        GLCall.glUniformMatrix4fv location count transpose
            (.SimpleProjectionMatrix aspectRatio) ∈
          g1.log.drop g.log.length →
        aspectRatio = .div (.ofInt r.mWindowWidth) (.ofInt r.mWindowHeight)) := by
  match htv : r.textureVec with
  | [] => simp [htv] at hlen
  | [_] => simp [htv] at hlen
  | texture0 :: texture1 :: tl =>
    refine ⟨?g1, ?h1, ?h2⟩
    case h1 =>
      simp only [SimpleRenderer.Draw, hp, htv, if_false, List.getElem?_cons_zero,
        List.getElem?_cons_succ]
      exact rfl
    case h2 =>
      simp [glEnable, glClear, glUseProgram, glActiveTexture, glBindTexture,
        glGetUniformLocation, glUniform1i, glBindBuffer, glEnableVertexAttribArray,
          glVertexAttribPointer, glUniformMatrix4fv, glUniform3fv, glUniform1fv,
          glDrawElements, emit]

theorem Draw_short (D : Driver) (r : SimpleRenderer) (g : GLState)
    (hp : r.mProgram ≠ 0) (hlen : r.textureVec.length < 2) :
    SimpleRenderer.Draw D r g = none := by
  match htv : r.textureVec with
  | [] => simp [SimpleRenderer.Draw, hp, htv]
  | [t] => simp [SimpleRenderer.Draw, hp, htv]
  | _ :: _ :: _ =>
    rw [htv] at hlen
    simp only [List.length_cons] at hlen
    omega

theorem Draw_frame (D : Driver) (r r1 : SimpleRenderer) (g g1 : GLState)
    (h : SimpleRenderer.Draw D r g = some (r1, g1)) :
    SameHandles r r1 ∧ Uploaded 0 g g1 := by
  by_cases hp : r.mProgram = 0
  · simp only [SimpleRenderer.Draw, hp, if_true, Option.some.injEq, Prod.mk.injEq] at h
    obtain ⟨h1, h2⟩ := h
    subst h1 h2
    exact ⟨⟨rfl, rfl, rfl, rfl, rfl⟩, rfl, rfl, rfl, [], by simp [glEnable, glClear, emit],
      rfl, by simp⟩
  · by_cases hlen : 2 ≤ r.textureVec.length
    · obtain ⟨g2, hd, h1, h2, h3, h4, _⟩ := Draw_ready D r g hp hlen
      rw [hd] at h
      simp only [Option.some.injEq, Prod.mk.injEq] at h
      obtain ⟨hr, hg⟩ := h
      subst hr hg
      exact ⟨⟨rfl, rfl, rfl, rfl, rfl⟩, h1, h2, h3, [], by simp [h4], rfl, by simp⟩
    · rw [Draw_short D r g hp (by omega)] at h
      simp at h

/-- After `n` draws from counter 0 the counter holds `n`, in 32 bits; nothing
else of the renderer has changed. -/
theorem drawN_ready (D : Driver) (r : SimpleRenderer) (g : GLState)
    (hp : r.mProgram ≠ 0) (hlen : 2 ≤ r.textureVec.length) (h0 : r.mDrawCount = 0) (n : Nat) :
    ∃ gn, drawN D n (r, g) = some ({ r with mDrawCount := wrapInt32 (n : Int) }, gn) := by
  induction n with
  | zero =>
    refine ⟨g, ?_⟩
    have : ({ r with mDrawCount := wrapInt32 ((0 : Nat) : Int) } : SimpleRenderer) = r := by
      cases r
      simp_all [wrapInt32]
    rw [this]
    rfl
  | succ n ih =>
    obtain ⟨gn, hn⟩ := ih
    obtain ⟨g1, hd, _⟩ :=
      Draw_ready D { r with mDrawCount := wrapInt32 (n : Int) } gn hp hlen
    refine ⟨g1, ?_⟩
    simp only [drawN, hn, Option.some_bind, hd, wrapInt32_succ]
    simp

/-- A `Draw` that gets past the program test ends with the indexed draw call
of `drawElementsCount` indices, read as unsigned shorts, from the index
buffer of the renderer. -/
theorem Draw_draws_elements (D : Driver) (r : SimpleRenderer) (g : GLState)
    (out : SimpleRenderer × GLState) (hp : r.mProgram ≠ 0)
    (h : SimpleRenderer.Draw D r g = some out) :
    [GLCall.glBindBuffer GL_ELEMENT_ARRAY_BUFFER r.mIndexBuffer,
      GLCall.glDrawElements GL_TRIANGLES drawElementsCount GL_UNSIGNED_SHORT 0] <:+ out.2.log := by
  match htv : r.textureVec with
  | [] =>
    rw [Draw_short D r g hp (by simp [htv])] at h
    simp at h
  | [_] =>
    rw [Draw_short D r g hp (by simp [htv])] at h
    simp at h
  | texture0 :: texture1 :: tl =>
    simp only [SimpleRenderer.Draw, hp, htv, if_false, List.getElem?_cons_zero,
      List.getElem?_cons_succ, Option.some.injEq] at h
    subst h
    simp only [glDrawElements, glBindBuffer, emit, List.append_assoc, List.singleton_append]
    exact List.suffix_append _ _

/-! ## Lemmas: shader compilation -/

/-- `CompileShader` answers the name the driver created, leaves that name
live whether it returns or throws, and touches no other kind of object. -/
theorem CompileShader_live (D : Driver) (type : Nat) (source : String) (g : GLState) :
    (CompileShader D type source g).2.programs = g.programs ∧
    (CompileShader D type source g).2.buffers = g.buffers ∧
    (CompileShader D type source g).2.textures = g.textures ∧
    (CompileShader D type source g).2.shaders = register (D.createShader g type) g.shaders ∧
    (∀ shader, (CompileShader D type source g).1 = .ok shader →
      shader = D.createShader g type) := by
  simp only [CompileShader, glCreateShader, glShaderSource, glCompileShader, glGetShaderiv,
    glGetShaderInfoLog, emit]
  split
  · split <;> simp
  · simp

/-- What `CompileShader` returns or throws, from the status and the length it
reads. -/
theorem CompileShader_outcome (D : Driver) (type : Nat) (source : String) (g : GLState) :
    (compileStatus D type source g ≠ 0 →
      (CompileShader D type source g).1 = .ok (D.createShader g type)) ∧
    (compileStatus D type source g = 0 →
      (shaderLogLength D type source g < 0 →
        (CompileShader D type source g).1 = .error .length_error) ∧
      (0 ≤ shaderLogLength D type source g →
        D.allocates (shaderLogLength D type source g).toNat = false →
        (CompileShader D type source g).1 = .error .bad_alloc) ∧
      (0 ≤ shaderLogLength D type source g →
        D.allocates (shaderLogLength D type source g).toNat = true →
        (CompileShader D type source g).1 =
          .error (.runtime_error (infoLogMessage "Shader compilation failed: "
            (shaderLog D type source g) (shaderLogLength D type source g))))) := by
  constructor
  · intro h
    simp only [CompileShader, glCreateShader]
    split
    · exact absurd ‹_› h
    · rfl
  · intro h
    have key : ∀ res, newInfoLog D (shaderLogLength D type source g) = res →
        (CompileShader D type source g).1 =
          match res with
          | .error e => .error e
          | .ok infoLog =>
            .error (.runtime_error (c_str ("Shader compilation failed: " ++
              String.mk (writeInfoLog (shaderLog D type source g) infoLog.length
                infoLog)))) := by
      intro res hres
      simp only [CompileShader, glCreateShader]
      split
      · generalize hgen : newInfoLog D _ = res1
        have h2 : res1 = res := hgen.symm.trans hres
        subst h2
        cases res1 <;> rfl
      · exact absurd h ‹_›
    rcases newInfoLog_cases D (shaderLogLength D type source g) with
      ⟨hn, he⟩ | ⟨hn, ha, he⟩ | ⟨hn, ha, he⟩
    · refine ⟨fun _ => ?_, fun h0 => absurd hn (by omega), fun h0 => absurd hn (by omega)⟩
      rw [key _ he]
    · refine ⟨fun h0 => absurd h0 (by omega), fun _ _ => ?_, fun _ hb => ?_⟩
      · rw [key _ he]
      · rw [ha] at hb
        simp at hb
    · refine ⟨fun h0 => absurd h0 (by omega), fun _ hb => ?_, fun _ _ => ?_⟩
      · rw [ha] at hb
        simp at hb
      · rw [key _ he]
        simp only [List.length_replicate]
        rw [c_str_message _ _ _ (by decide)]
        rfl

theorem CompileProgram_no_program (D : Driver) (vsSrc fsSrc : String) (g : GLState)
    (hp : D.createProgram g = 0) :
    CompileProgram D vsSrc fsSrc g =
      (.error (.runtime_error "Program creation failed"),
        { g with log := g.log ++ [.glCreateProgram] }) := by
  simp [CompileProgram, glCreateProgram, hp, register, emit]

theorem CompileProgram_vs_error (D : Driver) (vsSrc fsSrc : String) (g gv : GLState)
    (e : Exception) (hp : D.createProgram g ≠ 0)
    (hv : CompileShader D GL_VERTEX_SHADER vsSrc (glCreateProgram D g).2 = (.error e, gv)) :
    CompileProgram D vsSrc fsSrc g = (.error e, gv) := by
  have hp1 : ¬ (glCreateProgram D g).1 = 0 := hp
  simp only [CompileProgram, if_neg hp1, hv]

theorem CompileProgram_fs_error (D : Driver) (vsSrc fsSrc : String) (g gv gf : GLState)
    (vs : Nat) (e : Exception) (hp : D.createProgram g ≠ 0)
    (hv : CompileShader D GL_VERTEX_SHADER vsSrc (glCreateProgram D g).2 = (.ok vs, gv))
    (hf : CompileShader D GL_FRAGMENT_SHADER fsSrc gv = (.error e, gf)) :
    CompileProgram D vsSrc fsSrc g = (.error e, gf) := by
  have hp1 : ¬ (glCreateProgram D g).1 = 0 := hp
  simp only [CompileProgram, if_neg hp1, hv, hf]

theorem CompileProgram_no_shader (D : Driver) (vsSrc fsSrc : String) (g gv gf : GLState)
    (vs fs : Nat) (hp : D.createProgram g ≠ 0)
    (hv : CompileShader D GL_VERTEX_SHADER vsSrc (glCreateProgram D g).2 = (.ok vs, gv))
    (hf : CompileShader D GL_FRAGMENT_SHADER fsSrc gv = (.ok fs, gf))
    (h0 : vs = 0 ∨ fs = 0) :
    CompileProgram D vsSrc fsSrc g =
      (.ok 0, glDeleteProgram (D.createProgram g) (glDeleteShader vs (glDeleteShader fs gf))) := by
  have hp1 : ¬ (glCreateProgram D g).1 = 0 := hp
  simp only [CompileProgram, if_neg hp1, hv, hf, if_pos h0]
  rfl

/-- The link status read as 0: `CompileProgram` throws, what it throws follows
from the length read, and it leaves the live objects as the link found
them. -/
theorem CompileProgram_link_error (D : Driver) (vsSrc fsSrc : String) (g gv gf : GLState)
    (vs fs : Nat) (hp : D.createProgram g ≠ 0)
    (hv : CompileShader D GL_VERTEX_SHADER vsSrc (glCreateProgram D g).2 = (.ok vs, gv))
    (hf : CompileShader D GL_FRAGMENT_SHADER fsSrc gv = (.ok fs, gf))
    (hvs : vs ≠ 0) (hfs : fs ≠ 0)
    (hl : linkStatus D vsSrc fsSrc g vs fs = 0) :
    (CompileProgram D vsSrc fsSrc g).1 =
      (match newInfoLog D (programLogLength D vsSrc fsSrc g vs fs) with
        | .error e => .error e
        | .ok infoLog =>
          .error (.runtime_error (c_str ("Program link failed: " ++
            String.mk (writeInfoLog (programLog D vsSrc fsSrc g vs fs) infoLog.length
              infoLog))))) ∧
    (CompileProgram D vsSrc fsSrc g).2.programs = gf.programs ∧
    (CompileProgram D vsSrc fsSrc g).2.buffers = gf.buffers ∧
    (CompileProgram D vsSrc fsSrc g).2.textures = gf.textures ∧
    (CompileProgram D vsSrc fsSrc g).2.shaders = release fs (release vs gf.shaders) := by
  have hp1 : ¬ (glCreateProgram D g).1 = 0 := hp
  have hn : ¬ (vs = 0 ∨ fs = 0) := by
    intro h
    rcases h with h | h
    · exact hvs h
    · exact hfs h
  have hgf : (fragmentStage D vsSrc fsSrc g).2 = gf := by
    have h1 : (vertexStage D vsSrc g).2 = gv := congrArg Prod.snd hv
    show (CompileShader D GL_FRAGMENT_SHADER fsSrc (vertexStage D vsSrc g).2).2 = gf
    rw [h1, hf]
  have hl1 : (glGetProgramiv D (D.createProgram g) GL_LINK_STATUS
      (glLinkProgram (D.createProgram g) (glDeleteShader fs (glAttachShader (D.createProgram g) fs
        (glDeleteShader vs (glAttachShader (D.createProgram g) vs gf)))))).1 = 0 := by
    rw [← hgf]
    exact hl
  simp only [CompileProgram, if_neg hp1, hv, hf, if_neg hn]
  have hp2 : (glCreateProgram D g).1 = D.createProgram g := rfl
  simp only [hp2]
  rw [if_pos hl1]
  simp only [programLogLength, programLog, linkState, hgf]
  cases newInfoLog D (glGetProgramiv D (D.createProgram g) GL_INFO_LOG_LENGTH
      (glGetProgramiv D (D.createProgram g) GL_LINK_STATUS
        (glLinkProgram (D.createProgram g) (glDeleteShader fs
          (glAttachShader (D.createProgram g) fs
            (glDeleteShader vs (glAttachShader (D.createProgram g) vs gf)))))).2).1 <;>
    exact ⟨rfl, rfl, rfl, rfl, rfl⟩

theorem CompileProgram_linked (D : Driver) (vsSrc fsSrc : String) (g gv gf : GLState)
    (vs fs : Nat) (hp : D.createProgram g ≠ 0)
    (hv : CompileShader D GL_VERTEX_SHADER vsSrc (glCreateProgram D g).2 = (.ok vs, gv))
    (hf : CompileShader D GL_FRAGMENT_SHADER fsSrc gv = (.ok fs, gf))
    (hvs : vs ≠ 0) (hfs : fs ≠ 0)
    (hl : linkStatus D vsSrc fsSrc g vs fs ≠ 0) :
    CompileProgram D vsSrc fsSrc g =
      (.ok (D.createProgram g),
        (glGetProgramiv D (D.createProgram g) GL_LINK_STATUS
          (glLinkProgram (D.createProgram g) (glDeleteShader fs
            (glAttachShader (D.createProgram g) fs
              (glDeleteShader vs (glAttachShader (D.createProgram g) vs gf)))))).2) := by
  have hp1 : ¬ (glCreateProgram D g).1 = 0 := hp
  have hn : ¬ (vs = 0 ∨ fs = 0) := by
    intro h
    rcases h with h | h
    · exact hvs h
    · exact hfs h
  have hgf : (fragmentStage D vsSrc fsSrc g).2 = gf := by
    have h1 : (vertexStage D vsSrc g).2 = gv := congrArg Prod.snd hv
    show (CompileShader D GL_FRAGMENT_SHADER fsSrc (vertexStage D vsSrc g).2).2 = gf
    rw [h1, hf]
  have hl1 : ¬ (glGetProgramiv D (D.createProgram g) GL_LINK_STATUS
      (glLinkProgram (D.createProgram g) (glDeleteShader fs (glAttachShader (D.createProgram g) fs
        (glDeleteShader vs (glAttachShader (D.createProgram g) vs gf)))))).1 = 0 := by
    rw [← hgf]
    exact hl
  simp only [CompileProgram, if_neg hp1, hv, hf, if_neg hn]
  have hp2 : (glCreateProgram D g).1 = D.createProgram g := rfl
  simp only [hp2]
  rw [if_neg hl1]

/-- The six ways through `CompileProgram`. -/
theorem CompileProgram_cases (D : Driver) (vsSrc fsSrc : String) (g : GLState) :
    (D.createProgram g = 0 ∧
      CompileProgram D vsSrc fsSrc g =
        (.error (.runtime_error "Program creation failed"),
          { g with log := g.log ++ [.glCreateProgram] })) ∨
    (D.createProgram g ≠ 0 ∧ ∃ e gv,
      CompileShader D GL_VERTEX_SHADER vsSrc (glCreateProgram D g).2 = (.error e, gv) ∧
      CompileProgram D vsSrc fsSrc g = (.error e, gv)) ∨
    (D.createProgram g ≠ 0 ∧ ∃ vs gv e gf,
      CompileShader D GL_VERTEX_SHADER vsSrc (glCreateProgram D g).2 = (.ok vs, gv) ∧
      CompileShader D GL_FRAGMENT_SHADER fsSrc gv = (.error e, gf) ∧
      CompileProgram D vsSrc fsSrc g = (.error e, gf)) ∨
    (D.createProgram g ≠ 0 ∧ ∃ vs gv fs gf,
      CompileShader D GL_VERTEX_SHADER vsSrc (glCreateProgram D g).2 = (.ok vs, gv) ∧
      CompileShader D GL_FRAGMENT_SHADER fsSrc gv = (.ok fs, gf) ∧
      (vs = 0 ∨ fs = 0) ∧
      CompileProgram D vsSrc fsSrc g =
        (.ok 0, glDeleteProgram (D.createProgram g) (glDeleteShader vs (glDeleteShader fs gf)))) ∨
    (D.createProgram g ≠ 0 ∧ ∃ vs gv fs gf e gl,
      CompileShader D GL_VERTEX_SHADER vsSrc (glCreateProgram D g).2 = (.ok vs, gv) ∧
      CompileShader D GL_FRAGMENT_SHADER fsSrc gv = (.ok fs, gf) ∧
      vs ≠ 0 ∧ fs ≠ 0 ∧
      gl.programs = gf.programs ∧ gl.buffers = gf.buffers ∧ gl.textures = gf.textures ∧
      gl.shaders = release fs (release vs gf.shaders) ∧
      CompileProgram D vsSrc fsSrc g = (.error e, gl)) ∨
    (D.createProgram g ≠ 0 ∧ ∃ vs gv fs gf gl,
      CompileShader D GL_VERTEX_SHADER vsSrc (glCreateProgram D g).2 = (.ok vs, gv) ∧
      CompileShader D GL_FRAGMENT_SHADER fsSrc gv = (.ok fs, gf) ∧
      vs ≠ 0 ∧ fs ≠ 0 ∧
      gl.programs = gf.programs ∧ gl.buffers = gf.buffers ∧ gl.textures = gf.textures ∧
      gl.shaders = release fs (release vs gf.shaders) ∧
      CompileProgram D vsSrc fsSrc g = (.ok (D.createProgram g), gl)) := by
  by_cases hp : D.createProgram g = 0
  · exact Or.inl ⟨hp, CompileProgram_no_program D vsSrc fsSrc g hp⟩
  refine Or.inr ?_
  rcases hv : CompileShader D GL_VERTEX_SHADER vsSrc (glCreateProgram D g).2 with ⟨e | vs, gv⟩
  · exact Or.inl ⟨hp, e, gv, rfl, CompileProgram_vs_error D vsSrc fsSrc g gv e hp hv⟩
  refine Or.inr ?_
  rcases hf : CompileShader D GL_FRAGMENT_SHADER fsSrc gv with ⟨e | fs, gf⟩
  · exact Or.inl ⟨hp, vs, gv, e, gf, rfl, hf,
      CompileProgram_fs_error D vsSrc fsSrc g gv gf vs e hp hv hf⟩
  refine Or.inr ?_
  by_cases h0 : vs = 0 ∨ fs = 0
  · exact Or.inl ⟨hp, vs, gv, fs, gf, rfl, hf, h0,
      CompileProgram_no_shader D vsSrc fsSrc g gv gf vs fs hp hv hf h0⟩
  refine Or.inr ?_
  have hvs : vs ≠ 0 := fun h => h0 (Or.inl h)
  have hfs : fs ≠ 0 := fun h => h0 (Or.inr h)
  by_cases hl : linkStatus D vsSrc fsSrc g vs fs = 0
  · obtain ⟨h1, h2, h3, h4, h5⟩ :=
      CompileProgram_link_error D vsSrc fsSrc g gv gf vs fs hp hv hf hvs hfs hl
    have he : ∃ e, (CompileProgram D vsSrc fsSrc g).1 = .error e := by
      rw [h1]
      cases newInfoLog D (programLogLength D vsSrc fsSrc g vs fs) with
      | error e => exact ⟨e, rfl⟩
      | ok infoLog => exact ⟨_, rfl⟩
    obtain ⟨e, he⟩ := he
    exact Or.inl ⟨hp, vs, gv, fs, gf, e, (CompileProgram D vsSrc fsSrc g).2, rfl, hf, hvs, hfs,
      h2, h3, h4, h5, Prod.ext he rfl⟩
  · refine Or.inr ⟨hp, vs, gv, fs, gf, _, rfl, hf, hvs, hfs, ?_, ?_, ?_, ?_,
      CompileProgram_linked D vsSrc fsSrc g gv gf vs fs hp hv hf hvs hfs hl⟩ <;> rfl

/-- Whatever its outcome, `CompileProgram` creates and deletes no buffer and
no texture. -/
theorem CompileProgram_live (D : Driver) (vsSrc fsSrc : String) (g : GLState) :
    (CompileProgram D vsSrc fsSrc g).2.buffers = g.buffers ∧
    (CompileProgram D vsSrc fsSrc g).2.textures = g.textures := by
  have hg : (glCreateProgram D g).2.buffers = g.buffers ∧
      (glCreateProgram D g).2.textures = g.textures := ⟨rfl, rfl⟩
  rcases CompileProgram_cases D vsSrc fsSrc g with
    ⟨_, h⟩ | ⟨_, e, gv, hv, h⟩ | ⟨_, vs, gv, e, gf, hv, hf, h⟩ |
    ⟨_, vs, gv, fs, gf, hv, hf, _, h⟩ |
    ⟨_, vs, gv, fs, gf, e, gl, hv, hf, _, _, _, hb, ht, _, h⟩ |
    ⟨_, vs, gv, fs, gf, gl, hv, hf, _, _, _, hb, ht, _, h⟩
  · rw [h]
    exact ⟨rfl, rfl⟩
  · have hlv := CompileShader_live D GL_VERTEX_SHADER vsSrc (glCreateProgram D g).2
    rw [hv] at hlv
    rw [h]
    exact ⟨hlv.2.1.trans hg.1, hlv.2.2.1.trans hg.2⟩
  · have hlv := CompileShader_live D GL_VERTEX_SHADER vsSrc (glCreateProgram D g).2
    have hlf := CompileShader_live D GL_FRAGMENT_SHADER fsSrc gv
    rw [hv] at hlv
    rw [hf] at hlf
    rw [h]
    exact ⟨hlf.2.1.trans (hlv.2.1.trans hg.1), hlf.2.2.1.trans (hlv.2.2.1.trans hg.2)⟩
  · have hlv := CompileShader_live D GL_VERTEX_SHADER vsSrc (glCreateProgram D g).2
    have hlf := CompileShader_live D GL_FRAGMENT_SHADER fsSrc gv
    rw [hv] at hlv
    rw [hf] at hlf
    rw [h]
    exact ⟨hlf.2.1.trans (hlv.2.1.trans hg.1), hlf.2.2.1.trans (hlv.2.2.1.trans hg.2)⟩
  · have hlv := CompileShader_live D GL_VERTEX_SHADER vsSrc (glCreateProgram D g).2
    have hlf := CompileShader_live D GL_FRAGMENT_SHADER fsSrc gv
    rw [hv] at hlv
    rw [hf] at hlf
    rw [h]
    exact ⟨hb.trans (hlf.2.1.trans (hlv.2.1.trans hg.1)),
      ht.trans (hlf.2.2.1.trans (hlv.2.2.1.trans hg.2))⟩
  · have hlv := CompileShader_live D GL_VERTEX_SHADER vsSrc (glCreateProgram D g).2
    have hlf := CompileShader_live D GL_FRAGMENT_SHADER fsSrc gv
    rw [hv] at hlv
    rw [hf] at hlf
    rw [h]
    exact ⟨hb.trans (hlf.2.1.trans (hlv.2.1.trans hg.1)),
      ht.trans (hlf.2.2.1.trans (hlv.2.2.1.trans hg.2))⟩

/-- When `CompileProgram` returns, no shader it created is live; the program
it returns is the one it created, live; when it returns `0` the program it
created is not live. -/
theorem CompileProgram_ok_live (D : Driver) (vsSrc fsSrc : String) (g g1 : GLState) (p : Nat)
    (h : CompileProgram D vsSrc fsSrc g = (.ok p, g1)) :
    D.createProgram g ≠ 0 ∧
    (∀ n ∈ g1.shaders, n ∈ g.shaders) ∧
    (p = 0 → ∀ n ∈ g1.programs, n ∈ g.programs ∧ n ≠ D.createProgram g) ∧
    (p ≠ 0 → p = D.createProgram g ∧ g1.programs = g.programs ++ [p]) := by
  have hshaders : ∀ (vs fs : Nat) (gv gf : GLState),
      CompileShader D GL_VERTEX_SHADER vsSrc (glCreateProgram D g).2 = (.ok vs, gv) →
      CompileShader D GL_FRAGMENT_SHADER fsSrc gv = (.ok fs, gf) →
      (∀ n ∈ release fs (release vs gf.shaders), n ∈ g.shaders) ∧
      (∀ n ∈ release vs (release fs gf.shaders), n ∈ g.shaders) ∧
      gf.programs = register (D.createProgram g) g.programs := by
    intro vs fs gv gf hv hf
    have hlv := CompileShader_live D GL_VERTEX_SHADER vsSrc (glCreateProgram D g).2
    have hlf := CompileShader_live D GL_FRAGMENT_SHADER fsSrc gv
    rw [hv] at hlv
    rw [hf] at hlf
    obtain ⟨hvp, _, _, hvs, hvn⟩ := hlv
    obtain ⟨hfp, _, _, hfsh, hfn⟩ := hlf
    have e1 : vs = D.createShader (glCreateProgram D g).2 GL_VERTEX_SHADER := hvn vs rfl
    have e2 : fs = D.createShader gv GL_FRAGMENT_SHADER := hfn fs rfl
    have key : ∀ n ∈ gf.shaders, n ∈ g.shaders ∨ n = vs ∨ n = fs := by
      intro n hn
      have hn1 : n ∈ register (D.createShader gv GL_FRAGMENT_SHADER) gv.shaders := hfsh ▸ hn
      rcases mem_register hn1 with hn2 | hn2
      · have hn3 : n ∈ register (D.createShader (glCreateProgram D g).2 GL_VERTEX_SHADER)
            (glCreateProgram D g).2.shaders := hvs ▸ hn2
        rcases mem_register hn3 with hn4 | hn4
        · exact Or.inl hn4
        · exact Or.inr (Or.inl (hn4.trans e1.symm))
      · exact Or.inr (Or.inr (hn2.trans e2.symm))
    refine ⟨?_, ?_, ?_⟩
    · intro n hn
      obtain ⟨hn1, hnf⟩ := mem_release.mp hn
      obtain ⟨hn2, hnv⟩ := mem_release.mp hn1
      rcases key n hn2 with h1 | h1 | h1
      · exact h1
      · exact absurd h1 hnv
      · exact absurd h1 hnf
    · intro n hn
      obtain ⟨hn1, hnv⟩ := mem_release.mp hn
      obtain ⟨hn2, hnf⟩ := mem_release.mp hn1
      rcases key n hn2 with h1 | h1 | h1
      · exact h1
      · exact absurd h1 hnv
      · exact absurd h1 hnf
    · exact hfp.trans hvp
  rcases CompileProgram_cases D vsSrc fsSrc g with
    ⟨_, h1⟩ | ⟨_, e, gv, hv, h1⟩ | ⟨_, vs, gv, e, gf, hv, hf, h1⟩ |
    ⟨hp, vs, gv, fs, gf, hv, hf, _, h1⟩ |
    ⟨_, vs, gv, fs, gf, e, gl, hv, hf, _, _, _, _, _, _, h1⟩ |
    ⟨hp, vs, gv, fs, gf, gl, hv, hf, _, _, hpr, _, _, hsh, h1⟩
  · rw [h1] at h; simp at h
  · rw [h1] at h; simp at h
  · rw [h1] at h; simp at h
  · rw [h1] at h
    simp only [Prod.mk.injEq, Except.ok.injEq] at h
    obtain ⟨hp0, hg1⟩ := h
    subst hp0 hg1
    obtain ⟨_, hs2, hprog⟩ := hshaders vs fs gv gf hv hf
    refine ⟨hp, hs2, ?_, fun hne => absurd rfl hne⟩
    intro _ n hn
    have hn1 : n ∈ release (D.createProgram g) gf.programs := hn
    obtain ⟨hn2, hn3⟩ := mem_release.mp hn1
    rw [hprog] at hn2
    rcases mem_register hn2 with h4 | h4
    · exact ⟨h4, hn3⟩
    · exact absurd h4 hn3
  · rw [h1] at h; simp at h
  · rw [h1] at h
    simp only [Prod.mk.injEq, Except.ok.injEq] at h
    obtain ⟨hp0, hg1⟩ := h
    subst hp0 hg1
    obtain ⟨hs1, _, hprog⟩ := hshaders vs fs gv gf hv hf
    refine ⟨hp, ?_, fun h0 => absurd h0 hp, fun _ => ⟨rfl, ?_⟩⟩
    · intro n hn
      rw [hsh] at hn
      exact hs1 n hn
    · rw [hpr, hprog]
      simp [register, hp]

/-! ## Lemmas: constructor, destructor, operations -/

/-- The constructor stops where `CompileProgram` throws. -/
theorem ctor_of_error (D : Driver) (g : GLState) (e : Exception)
    (h : (CompileProgram D vsSource fsSource g).1 = .error e) :
    SimpleRenderer.ctor D g = (.error e, (CompileProgram D vsSource fsSource g).2) := by
  have h1 : CompileProgram D vsSource fsSource g =
      (.error e, (CompileProgram D vsSource fsSource g).2) := Prod.ext h rfl
  unfold SimpleRenderer.ctor
  rw [h1]

/-- What a successful constructor leaves in the fields it sets itself. -/
theorem ctor_ok_fields (D : Driver) (g0 g1 : GLState) (r0 : SimpleRenderer)
    (h : SimpleRenderer.ctor D g0 = (.ok r0, g1)) :
    r0.mDrawCount = 0 ∧ r0.textureVec = [] ∧ r0.mWindowWidth = 0 ∧ r0.mWindowHeight = 0 := by
  unfold SimpleRenderer.ctor at h
  split at h
  · simp at h
  · simp only [Prod.mk.injEq, Except.ok.injEq] at h
    obtain ⟨h1, _⟩ := h
    subst h1
    exact ⟨rfl, rfl, rfl, rfl⟩

/-- What a successful constructor leaves in the driver. -/
theorem ctor_ok_live (D : Driver) (g0 g1 : GLState) (r : SimpleRenderer)
    (h : SimpleRenderer.ctor D g0 = (.ok r, g1)) :
    r.mVertexPositionBuffer ≠ 0 ∧ r.mVertexColorBuffer ≠ 0 ∧ r.mTextureCoordsBuffer ≠ 0 ∧
    r.mIndexBuffer ≠ 0 ∧
    g1.buffers = g0.buffers ++
      [r.mVertexPositionBuffer, r.mVertexColorBuffer, r.mTextureCoordsBuffer, r.mIndexBuffer] ∧
    g1.textures = g0.textures ∧
    (∀ n ∈ g1.shaders, n ∈ g0.shaders) ∧
    (r.mProgram = 0 → ∀ n ∈ g1.programs, n ∈ g0.programs ∧ n ≠ D.createProgram g0) ∧
    (r.mProgram ≠ 0 → r.mProgram = D.createProgram g0 ∧
      g1.programs = g0.programs ++ [r.mProgram]) := by
  rcases hcp : CompileProgram D vsSource fsSource g0 with ⟨e | p, gp⟩
  · simp [SimpleRenderer.ctor, hcp] at h
  · obtain ⟨_, hsh, hp0, hp1⟩ := CompileProgram_ok_live D vsSource fsSource g0 gp p hcp
    have hlive := CompileProgram_live D vsSource fsSource g0
    rw [hcp] at hlive
    obtain ⟨hb, ht⟩ := hlive
    simp only [SimpleRenderer.ctor, hcp, glGetAttribLocation, glGetUniformLocation,
      glGenBuffers, glBindBuffer, glBufferData, emit, Prod.mk.injEq, Except.ok.injEq] at h
    obtain ⟨hr, hg⟩ := h
    subst hr hg
    refine ⟨D.genBuffer_ne_zero _, D.genBuffer_ne_zero _, D.genBuffer_ne_zero _,
      D.genBuffer_ne_zero _, ?_, ht, hsh, hp0, hp1⟩
    have hb1 : g0.buffers = gp.buffers := hb.symm
    rw [hb1]
    simp [List.append_assoc]

/-- A constructor that returns ends with the creation and filling of the
four buffers, from the four tables of the cube. -/
theorem ctor_uploads_tables (D : Driver) (g0 g1 : GLState) (r : SimpleRenderer)
    (h : SimpleRenderer.ctor D g0 = (.ok r, g1)) :
    [GLCall.glGenBuffers 1,
      .glBindBuffer GL_ARRAY_BUFFER r.mVertexPositionBuffer,
      .glBufferData GL_ARRAY_BUFFER (sizeofGLfloat * vertexPositions.length) vertexPositions
        GL_STATIC_DRAW,
      .glGenBuffers 1,
      .glBindBuffer GL_ARRAY_BUFFER r.mVertexColorBuffer,
      .glBufferData GL_ARRAY_BUFFER (sizeofGLfloat * vertexColors.length) vertexColors
        GL_STATIC_DRAW,
      .glGenBuffers 1,
      .glBindBuffer GL_ARRAY_BUFFER r.mTextureCoordsBuffer,
      .glBufferData GL_ARRAY_BUFFER (sizeofGLfloat * textureCoords.length) textureCoords
        GL_STATIC_DRAW,
      .glGenBuffers 1,
      .glBindBuffer GL_ELEMENT_ARRAY_BUFFER r.mIndexBuffer,
      .glBufferData GL_ELEMENT_ARRAY_BUFFER (sizeofShort * indices.length) indices
        GL_STATIC_DRAW] <:+ g1.log := by
  rcases hcp : CompileProgram D vsSource fsSource g0 with ⟨e | p, gp⟩
  · simp [SimpleRenderer.ctor, hcp] at h
  · simp only [SimpleRenderer.ctor, hcp, glGetAttribLocation, glGetUniformLocation,
      glGenBuffers, glBindBuffer, glBufferData, emit, Prod.mk.injEq, Except.ok.injEq] at h
    obtain ⟨hr, hg⟩ := h
    subst hr hg
    simp only [List.append_assoc, List.singleton_append]
    refine ⟨gp.log ++ [.glGetAttribLocation p "aPosition", .glGetAttribLocation p "aColor",
      .glGetAttribLocation p "aTexCoord", .glGetUniformLocation p "uModelMatrix",
      .glGetUniformLocation p "uViewMatrix", .glGetUniformLocation p "uProjMatrix",
      .glGetUniformLocation p "lightPosition", .glGetUniformLocation p "eyePosition",
      .glGetUniformLocation p "ambient"], ?_⟩
    simp

/-- The destructor deletes the program and each buffer whose name is not 0,
and nothing else. -/
theorem dtor_live (r : SimpleRenderer) (g : GLState) :
    (SimpleRenderer.dtor r g).2.textures = g.textures ∧
    (SimpleRenderer.dtor r g).2.shaders = g.shaders ∧
    (∀ n ∈ (SimpleRenderer.dtor r g).2.programs,
      n ∈ g.programs ∧ (r.mProgram ≠ 0 → n ≠ r.mProgram)) ∧
    (∀ n ∈ (SimpleRenderer.dtor r g).2.buffers,
      n ∈ g.buffers ∧ (r.mVertexPositionBuffer ≠ 0 → n ≠ r.mVertexPositionBuffer) ∧
      (r.mVertexColorBuffer ≠ 0 → n ≠ r.mVertexColorBuffer) ∧
      (r.mTextureCoordsBuffer ≠ 0 → n ≠ r.mTextureCoordsBuffer) ∧
      (r.mIndexBuffer ≠ 0 → n ≠ r.mIndexBuffer)) := by
  by_cases h1 : r.mProgram = 0 <;> by_cases h2 : r.mVertexPositionBuffer = 0 <;>
    by_cases h3 : r.mVertexColorBuffer = 0 <;> by_cases h4 : r.mTextureCoordsBuffer = 0 <;>
    by_cases h5 : r.mIndexBuffer = 0 <;>
    simp [SimpleRenderer.dtor, h1, h2, h3, h4, h5, glDeleteProgram, glDeleteBuffers, emit,
      release] <;> tauto

/-- The eight calls of an upload create one texture and touch no other
object of the driver. -/
theorem uploadState_live (D : Driver) (pdata : List Nat) (g : GLState) :
    (uploadState D pdata g).programs = g.programs ∧
    (uploadState D pdata g).shaders = g.shaders ∧
    (uploadState D pdata g).buffers = g.buffers ∧
    (uploadState D pdata g).textures = g.textures ++ [D.genTexture g] := by
  simp [uploadState, glGenTextures, glBindTexture, glTexParameteri, glTexImage2D, emit]

/-- An upload through a reference to an object succeeds; it leaves the
renderer as it was but for the element referred to, and the driver in
`uploadState`. -/
theorem sendTextureToOpenGL_some (D : Driver) (r : SimpleRenderer) (pdata : List Nat)
    (textureId : TextureRef) (g : GLState) (h : textureId.inRange r = true) :
    ∃ r1, SimpleRenderer.sendTextureToOpenGL D r pdata textureId g =
        some (D.genTexture g, r1, uploadState D pdata g) ∧
      (textureId = .outside → r1 = r) ∧
      (∀ i, textureId = .element i →
        r1 = { r with textureVec := r.textureVec.set i (D.genTexture g) }) ∧
      r1.textureVec.length = r.textureVec.length := by
  cases textureId with
  | outside =>
    refine ⟨r, ?_, fun _ => rfl, ?_, rfl⟩
    · simp only [SimpleRenderer.sendTextureToOpenGL, h, if_true]
      rfl
    · intro i hi
      cases hi
  | element i =>
    refine ⟨{ r with textureVec := r.textureVec.set i (D.genTexture g) }, ?_, ?_, ?_, ?_⟩
    · simp only [SimpleRenderer.sendTextureToOpenGL, h, if_true]
      rfl
    · intro hi
      cases hi
    · intro j hj
      cases hj
      rfl
    · simp

theorem sendTextureToOpenGL_frame (D : Driver) (r r1 : SimpleRenderer) (pdata : List Nat)
    (textureId : TextureRef) (g g1 : GLState)
    (h : (SimpleRenderer.sendTextureToOpenGL D r pdata textureId g).map (fun out => out.2) =
      some (r1, g1)) :
    SameHandles r r1 ∧ Uploaded 1 g g1 := by
  have hne : (0 : Nat) ∉ [D.genTexture g] := fun h0 =>
    D.genTexture_ne_zero g (List.mem_singleton.mp h0).symm
  by_cases hin : textureId.inRange r = true
  · obtain ⟨r2, hs, ho, he, _⟩ := sendTextureToOpenGL_some D r pdata textureId g hin
    rw [hs] at h
    simp only [Option.map_some', Option.some.injEq, Prod.mk.injEq] at h
    obtain ⟨h1, h2⟩ := h
    obtain ⟨hp, hsh, hb, ht⟩ := uploadState_live D pdata g
    rw [← h2]
    refine ⟨?_, hp, hsh, hb, [D.genTexture g], ht, rfl, hne⟩
    rw [← h1]
    cases textureId with
    | outside =>
      rw [ho rfl]
      exact ⟨rfl, rfl, rfl, rfl, rfl⟩
    | element i =>
      rw [he i rfl]
      exact ⟨rfl, rfl, rfl, rfl, rfl⟩
  · have hnone : SimpleRenderer.sendTextureToOpenGL D r pdata textureId g = none := by
      simp only [SimpleRenderer.sendTextureToOpenGL]
      rw [if_neg hin]
    rw [hnone] at h
    cases h

theorem step_frame (D : Driver) (op : Op) (r r1 : SimpleRenderer) (g g1 : GLState)
    (h : step D op (r, g) = some (r1, g1)) :
    SameHandles r r1 ∧ Uploaded (uploads [op]) g g1 := by
  cases op with
  | Draw => exact Draw_frame D r r1 g g1 h
  | UpdateWindowSize width height =>
    simp only [step, SimpleRenderer.UpdateWindowSize, Option.some.injEq, Prod.mk.injEq] at h
    obtain ⟨h1, h2⟩ := h
    subst h1 h2
    exact ⟨⟨rfl, rfl, rfl, rfl, rfl⟩, rfl, rfl, rfl, [], by simp [glViewport, emit], rfl,
      by simp⟩
  | sendTextureToOpenGL pdata textureId =>
    exact sendTextureToOpenGL_frame D r r1 pdata textureId g g1 h
  | push_back id =>
    simp only [step, Option.some.injEq, Prod.mk.injEq] at h
    obtain ⟨h1, h2⟩ := h
    subst h1 h2
    exact ⟨⟨rfl, rfl, rfl, rfl, rfl⟩, rfl, rfl, rfl, [], by simp, rfl, by simp⟩

theorem runOps_frame (D : Driver) (ops : List Op) :
    ∀ (r r1 : SimpleRenderer) (g g1 : GLState), runOps D ops (r, g) = some (r1, g1) →
      SameHandles r r1 ∧ Uploaded (uploads ops) g g1 := by
  induction ops with
  | nil =>
    intro r r1 g g1 h
    simp only [runOps, Option.some.injEq, Prod.mk.injEq] at h
    obtain ⟨h1, h2⟩ := h
    subst h1 h2
    exact ⟨⟨rfl, rfl, rfl, rfl, rfl⟩, rfl, rfl, rfl, [], by simp, rfl, by simp⟩
  | cons op ops ih =>
    intro r r1 g g1 h
    simp only [runOps] at h
    rcases hs : step D op (r, g) with _ | ⟨rm, gm⟩
    · rw [hs] at h
      simp at h
    · rw [hs] at h
      simp only [Option.some_bind] at h
      obtain ⟨⟨a1, a2, a3, a4, a5⟩, b1, b2, b3, hs1, b4, b5, b6⟩ := step_frame D op r rm g gm hs
      obtain ⟨⟨c1, c2, c3, c4, c5⟩, d1, d2, d3, hs2, d4, d5, d6⟩ := ih rm r1 gm g1 h
      refine ⟨⟨c1.trans a1, c2.trans a2, c3.trans a3, c4.trans a4, c5.trans a5⟩,
        d1.trans b1, d2.trans b2, d3.trans b3, hs1 ++ hs2, ?_, ?_, ?_⟩
      · rw [d4, b4, List.append_assoc]
      · rw [uploads_cons op ops, List.length_append, b5, d5]
      · intro hmem
        rcases List.mem_append.mp hmem with hm | hm
        · exact b6 hm
        · exact d6 hm

/-! ## The cube mesh (C1, C10) -/

/-- Claim C1: the cube tables hold 24 position vertices (72 floats), 24 colour
vertices (72 floats), 24 texture-coordinate pairs (48 floats) and 36 indices;
every index lies in [0, 23], so it fits 16 unsigned bits and names a vertex
of each table; the index count is the count that `Draw` passes to
`glDrawElements`, `(6 * 2) * 3`. A constructor that returns has ended with the
upload of these four tables, each to its own buffer, and a `Draw` with a
non-zero program that returns has ended with `glDrawElements` of 36 unsigned
shorts from the index buffer. -/
theorem cube_mesh_counts :
    (vertexPositions.length = 3 * 24 ∧ vertexPositions.length = 72 ∧
      vertexColors.length = 3 * 24 ∧ vertexColors.length = 72 ∧
      textureCoords.length = 2 * 24 ∧ textureCoords.length = 48 ∧
      indices.length = 36 ∧
      (∀ i ∈ indices, 0 ≤ i ∧ i ≤ 23) ∧
      (∀ i ∈ indices, i < 2 ^ 16 ∧ 3 * i.toNat + 2 < vertexPositions.length ∧
        3 * i.toNat + 2 < vertexColors.length ∧ 2 * i.toNat + 1 < textureCoords.length) ∧
      drawElementsCount = 36 ∧ (indices.length : Int) = drawElementsCount) ∧
    (∀ (D : Driver) (g0 g1 : GLState) (r : SimpleRenderer),
      SimpleRenderer.ctor D g0 = (.ok r, g1) →
      [GLCall.glGenBuffers 1,
        .glBindBuffer GL_ARRAY_BUFFER r.mVertexPositionBuffer,
        .glBufferData GL_ARRAY_BUFFER (4 * 72) vertexPositions GL_STATIC_DRAW,
        .glGenBuffers 1,
        .glBindBuffer GL_ARRAY_BUFFER r.mVertexColorBuffer,
        .glBufferData GL_ARRAY_BUFFER (4 * 72) vertexColors GL_STATIC_DRAW,
        .glGenBuffers 1,
        .glBindBuffer GL_ARRAY_BUFFER r.mTextureCoordsBuffer,
        .glBufferData GL_ARRAY_BUFFER (4 * 48) textureCoords GL_STATIC_DRAW,
        .glGenBuffers 1,
        .glBindBuffer GL_ELEMENT_ARRAY_BUFFER r.mIndexBuffer,
        .glBufferData GL_ELEMENT_ARRAY_BUFFER (2 * 36) indices GL_STATIC_DRAW] <:+ g1.log) ∧
    (∀ (D : Driver) (r : SimpleRenderer) (g : GLState) (out : SimpleRenderer × GLState),
      r.mProgram ≠ 0 → SimpleRenderer.Draw D r g = some out →
      [GLCall.glBindBuffer GL_ELEMENT_ARRAY_BUFFER r.mIndexBuffer,
        .glDrawElements GL_TRIANGLES 36 GL_UNSIGNED_SHORT 0] <:+ out.2.log) := by
  refine ⟨by decide, ?_, ?_⟩
  · intro D g0 g1 r h
    exact ctor_uploads_tables D g0 g1 r h
  · intro D r g out hp h
    exact Draw_draws_elements D r g out hp h

/-- Claim C1 on the renderer that `okDriver` builds: its last twelve calls
upload the tables, and the first `Draw` of the renderer, two textures in
place, ends with the draw call of 36 indices. -/
theorem cube_mesh_counts_witness :
    (SimpleRenderer.ctor okDriver emptyGL).1 = .ok builtRenderer ∧
    [GLCall.glGenBuffers 1, .glBindBuffer 0x8892 1,
      .glBufferData 0x8892 288 vertexPositions 0x88E4,
      .glGenBuffers 1, .glBindBuffer 0x8892 2,
      .glBufferData 0x8892 288 vertexColors 0x88E4,
      .glGenBuffers 1, .glBindBuffer 0x8892 3,
      .glBufferData 0x8892 192 textureCoords 0x88E4,
      .glGenBuffers 1, .glBindBuffer 0x8893 4,
      .glBufferData 0x8893 72 indices 0x88E4] <:+ (SimpleRenderer.ctor okDriver emptyGL).2.log ∧
    ∃ out, SimpleRenderer.Draw okDriver readyRenderer emptyGL = some out ∧
      [GLCall.glBindBuffer 0x8893 4, .glDrawElements 4 36 0x1403 0] <:+ out.2.log := by
  refine ⟨rfl, ?_, ?_⟩
  · exact cube_mesh_counts.2.1 okDriver emptyGL _ builtRenderer rfl
  · have hd : SimpleRenderer.Draw okDriver readyRenderer emptyGL =
        some ((SimpleRenderer.Draw okDriver readyRenderer emptyGL).getD
          (readyRenderer, emptyGL)) := rfl
    exact ⟨_, hd, cube_mesh_counts.2.2 okDriver readyRenderer emptyGL _ (by decide) hd⟩

/-- Claim C10: in the cube tables the colour of every vertex `i` in 0..23 is
a signed unit axis vector with `dot position[i] colour[i] = 1` (the outward
unit normal of the face of the vertex), and for each of the 12 triangles
`(a, b, c)` of the index table the three vertices have one colour `n` and
`cross (position[b] - position[a]) (position[c] - position[a]) = 4 * n`. -/
theorem cube_normals_and_winding :
    (∀ i < 24, vertexAt vertexColors i ∈ signedUnitAxes ∧
      dot (vertexAt vertexPositions i) (vertexAt vertexColors i) = 1) ∧
    (∀ k < 12,
      vertexAt vertexColors (triangleAt k).1 = vertexAt vertexColors (triangleAt k).2.1 ∧
      vertexAt vertexColors (triangleAt k).1 = vertexAt vertexColors (triangleAt k).2.2 ∧
      cross
        (vsub (vertexAt vertexPositions (triangleAt k).2.1)
          (vertexAt vertexPositions (triangleAt k).1))
        (vsub (vertexAt vertexPositions (triangleAt k).2.2)
          (vertexAt vertexPositions (triangleAt k).1))
        = vscale 4 (vertexAt vertexColors (triangleAt k).1)) := by
  decide

/-! ## Texture upload (C2) -/

/-- Claim C2, amended: for every renderer state, every pixel buffer and
every object the reference parameter refers to, `sendTextureToOpenGL` leaves
in that object the name the driver has just generated (non-zero, not in use
before, live afterwards) and makes the eight calls of the upload. It appends
nothing to `textureVec`: the list keeps its length, and the renderer is
exactly as it was when the reference is to a variable outside it; when the
reference is to the element `textureVec[i]`, that element now holds the new
name and nothing else has changed. After two successive calls the two names
are distinct and are the last two live textures of the driver, in call
order, and the list has its length still. -/
theorem sendTextureToOpenGL_spec (D : Driver) (r : SimpleRenderer) (pdata pdata2 : List Nat)
    (textureId textureId2 : TextureRef) (g : GLState)
    (h1 : textureId.inRange r = true) (h2 : textureId2.inRange r = true) :
    ∃ name r1 g1,
      SimpleRenderer.sendTextureToOpenGL D r pdata textureId g = some (name, r1, g1) ∧
      name = D.genTexture g ∧ name ≠ 0 ∧ name ∉ g.textures ∧
      (textureId = .outside → r1 = r) ∧
      (∀ i, textureId = .element i →
        r1 = { r with textureVec := r.textureVec.set i name } ∧
        r1.textureVec[i]? = some name ∧
        ∀ j, j ≠ i → r1.textureVec[j]? = r.textureVec[j]?) ∧
      r1.textureVec.length = r.textureVec.length ∧
      g1 =
        { g with
          textures := g.textures ++ [name]
          log := g.log ++
            [.glGenTextures 1,
              .glBindTexture GL_TEXTURE_2D name,
              .glTexParameteri GL_TEXTURE_2D GL_TEXTURE_WRAP_S GL_REPEAT,
              .glTexParameteri GL_TEXTURE_2D GL_TEXTURE_WRAP_T GL_REPEAT,
              .glTexParameteri GL_TEXTURE_2D GL_TEXTURE_MIN_FILTER GL_LINEAR,
              .glTexParameteri GL_TEXTURE_2D GL_TEXTURE_MAG_FILTER GL_LINEAR,
              .glTexImage2D GL_TEXTURE_2D 0 GL_RGB 1024 1024 0 GL_RGB GL_UNSIGNED_BYTE pdata,
              .glBindTexture GL_TEXTURE_2D 0] } ∧
      ∃ name2 r2 g2,
        SimpleRenderer.sendTextureToOpenGL D r1 pdata2 textureId2 g1 = some (name2, r2, g2) ∧
        name2 ≠ name ∧
        r2.textureVec.length = r.textureVec.length ∧
        g2.textures = g.textures ++ [name, name2] := by
  obtain ⟨r1, hs1, ho1, he1, hl1⟩ := sendTextureToOpenGL_some D r pdata textureId g h1
  have h2a : textureId2.inRange r1 = true := by
    cases textureId2 with
    | outside => rfl
    | element i =>
      simp only [TextureRef.inRange, decide_eq_true_eq] at h2 ⊢
      omega
  obtain ⟨r2, hs2, _, _, hl2⟩ :=
    sendTextureToOpenGL_some D r1 pdata2 textureId2 (uploadState D pdata g) h2a
  refine ⟨D.genTexture g, r1, uploadState D pdata g, hs1, rfl, D.genTexture_ne_zero g,
    D.genTexture_fresh g, ho1, ?_, hl1, ?_, D.genTexture (uploadState D pdata g), r2,
    uploadState D pdata2 (uploadState D pdata g), hs2, ?_, by rw [hl2, hl1], ?_⟩
  · intro i hi
    have hr1 := he1 i hi
    subst hi
    have hi : i < r.textureVec.length := by
      simpa [TextureRef.inRange] using h1
    refine ⟨hr1, ?_, ?_⟩
    · rw [hr1]
      simp [hi]
    · intro j hj
      rw [hr1]
      simp [List.getElem?_set, Ne.symm hj]
  · simp [uploadState, glGenTextures, glBindTexture, glTexParameteri, glTexImage2D, emit]
  · intro h
    have hfresh := D.genTexture_fresh (uploadState D pdata g)
    apply hfresh
    rw [h]
    simp [uploadState, glGenTextures, glBindTexture, glTexParameteri, glTexImage2D, emit]
  · simp [uploadState, glGenTextures, glBindTexture, glTexParameteri, glTexImage2D, emit]

/-- Claim C2, amended, on an upload into `textureVec[0]` of a list of two
followed by an upload into a variable of the caller. -/
theorem sendTextureToOpenGL_spec_witness :
    TextureRef.inRange (.element 0) { builtRenderer with textureVec := [7, 8] } = true ∧
    ∃ r1 g1,
      SimpleRenderer.sendTextureToOpenGL okDriver { builtRenderer with textureVec := [7, 8] }
        [] (.element 0) emptyGL = some (1, r1, g1) ∧
      r1.textureVec = [1, 8] ∧ g1.textures = [1] ∧
      ∃ r2 g2,
        SimpleRenderer.sendTextureToOpenGL okDriver r1 [] .outside g1 = some (2, r2, g2) ∧
        r2.textureVec.length = 2 ∧ g2.textures = [1, 2] := by
  obtain ⟨name, r1, g1, hs1, hn, _, _, _, he, _, hg1, name2, r2, g2, hs2, _, hl2, ht2⟩ :=
    sendTextureToOpenGL_spec okDriver { builtRenderer with textureVec := [7, 8] } [] []
      (.element 0) .outside emptyGL rfl rfl
  have hn1 : name = 1 := hn
  subst hn1
  have hr1 := (he 0 rfl).1
  have hname2 : name2 = 2 := by
    have h3 := congrArg (Option.map Prod.fst) hs2
    rw [hg1] at h3
    simpa [SimpleRenderer.sendTextureToOpenGL, TextureRef.inRange, glGenTextures] using h3.symm
  subst hname2
  refine ⟨rfl, r1, g1, hs1, by rw [hr1]; rfl, by rw [hg1]; rfl, r2, g2, hs2, hl2, ht2⟩

/-- Claim C2 as stated fails: on the freshly built renderer an upload into a
variable of the caller hands out texture 1 and the texture list stays empty,
so the list does not end with the new name; after a second upload (texture 2)
it is empty still. An upload into `textureVec[0]` of a list of two overwrites
that element and leaves two elements. -/
theorem sendTextureToOpenGL_does_not_append :
    (SimpleRenderer.sendTextureToOpenGL okDriver builtRenderer [] .outside emptyGL).map
      (fun out => (out.1, out.2.1.textureVec)) = some (1, []) ∧
    ((SimpleRenderer.sendTextureToOpenGL okDriver builtRenderer [] .outside emptyGL).bind
      (fun out => SimpleRenderer.sendTextureToOpenGL okDriver out.2.1 [] .outside out.2.2)).map
      (fun out => (out.1, out.2.1.textureVec)) = some (2, []) ∧
    (SimpleRenderer.sendTextureToOpenGL okDriver { builtRenderer with textureVec := [7, 8] } []
      (.element 0) emptyGL).map (fun out => (out.1, out.2.1.textureVec)) = some (1, [1, 8]) := by
  refine ⟨by decide, by decide, by decide⟩

/-! ## Construction to destruction (C3) -/

/-- Claim C3, amended: after a successful construction, any sequence of
draws, resizes, texture uploads and additions to the texture list, and the
destructor, no program, buffer or shader that the constructor created is
live: every live program, buffer and shader was live before the constructor
ran, the program the constructor created and the four buffers of the
renderer are not live. The textures are another matter: every texture that
`sendTextureToOpenGL` created is live still, one for each upload, for the
destructor deletes no texture. -/
theorem lifecycle_releases_program_and_buffers (D : Driver) (g0 g3 : GLState)
    (ops : List Op) (r : SimpleRenderer) (h : lifecycle D g0 ops = some (r, g3)) :
    (∀ n ∈ g3.programs, n ∈ g0.programs ∧ n ≠ D.createProgram g0) ∧
    (r.mProgram ≠ 0 → r.mProgram = D.createProgram g0) ∧
    (∀ n ∈ g3.buffers, n ∈ g0.buffers) ∧
    r.mVertexPositionBuffer ∉ g3.buffers ∧ r.mVertexColorBuffer ∉ g3.buffers ∧
    r.mTextureCoordsBuffer ∉ g3.buffers ∧ r.mIndexBuffer ∉ g3.buffers ∧
    (∀ n ∈ g3.shaders, n ∈ g0.shaders) ∧
    ∃ handles, g3.textures = g0.textures ++ handles ∧ handles.length = uploads ops ∧
      0 ∉ handles := by
  unfold lifecycle at h
  rcases hc : SimpleRenderer.ctor D g0 with ⟨e | rc, g1⟩
  · rw [hc] at h
    simp at h
  rw [hc] at h
  simp only at h
  rcases hr : runOps D ops (rc, g1) with _ | ⟨r2, g2⟩
  · rw [hr] at h
    simp at h
  rw [hr] at h
  simp only [Option.some.injEq, Prod.mk.injEq] at h
  obtain ⟨hrc, hg3⟩ := h
  subst hrc hg3
  obtain ⟨n1, n2, n3, n4, hbuf, htex, hsh, hp0, hp1⟩ := ctor_ok_live D g0 g1 rc hc
  obtain ⟨⟨e0, e1, e2, e3, e4⟩, u1, u2, u3, handles, u4, u5, u6⟩ :=
    runOps_frame D ops rc r2 g1 g2 hr
  obtain ⟨t1, t2, t3, t4⟩ := dtor_live r2 g2
  rw [e0] at t3
  rw [e1, e2, e3, e4] at t4
  have hbufs : ∀ n ∈ (SimpleRenderer.dtor r2 g2).2.buffers,
      n ∈ g0.buffers ∧ n ≠ rc.mVertexPositionBuffer ∧ n ≠ rc.mVertexColorBuffer ∧
      n ≠ rc.mTextureCoordsBuffer ∧ n ≠ rc.mIndexBuffer := by
    intro n hn
    obtain ⟨m0, m1, m2, m3, m4⟩ := t4 n hn
    have k1 := m1 n1
    have k2 := m2 n2
    have k3 := m3 n3
    have k4 := m4 n4
    rw [u3, hbuf] at m0
    refine ⟨?_, k1, k2, k3, k4⟩
    rcases List.mem_append.mp m0 with hm | hm
    · exact hm
    · simp only [List.mem_cons, List.mem_singleton, List.not_mem_nil, or_false] at hm
      rcases hm with hm | hm | hm | hm
      · exact absurd hm k1
      · exact absurd hm k2
      · exact absurd hm k3
      · exact absurd hm k4
  refine ⟨?_, fun hne => (hp1 hne).1, fun n hn => (hbufs n hn).1,
    fun hn => (hbufs _ hn).2.1 rfl, fun hn => (hbufs _ hn).2.2.1 rfl,
    fun hn => (hbufs _ hn).2.2.2.1 rfl, fun hn => (hbufs _ hn).2.2.2.2 rfl, ?_, ?_⟩
  · intro n hn
    obtain ⟨m0, m1⟩ := t3 n hn
    rw [u1] at m0
    by_cases hz : rc.mProgram = 0
    · exact hp0 hz n m0
    · obtain ⟨q1, q2⟩ := hp1 hz
      have k := m1 hz
      rw [q2] at m0
      rcases List.mem_append.mp m0 with hm | hm
      · exact ⟨hm, fun hq => k (hq.trans q1.symm)⟩
      · exact absurd (List.mem_singleton.mp hm) k
  · intro n hn
    rw [t2, u2] at hn
    exact hsh n hn
  · exact ⟨handles, by rw [t1, u4, htex], u5, u6⟩

/-- Claim C3, amended, on two uploads, a resize and two draws. -/
theorem lifecycle_releases_program_and_buffers_witness :
    ∃ g3, lifecycle okDriver emptyGL demoOps = some (builtRenderer, g3) ∧
      g3.programs = [] ∧ g3.buffers = [] ∧ g3.shaders = [] ∧
      ∃ handles, g3.textures = [] ++ handles ∧ handles.length = 2 ∧ 0 ∉ handles := by
  have hsome : lifecycle okDriver emptyGL demoOps =
      some (builtRenderer, ((lifecycle okDriver emptyGL demoOps).getD
        (builtRenderer, emptyGL)).2) := rfl
  obtain ⟨h1, _, h2, _, _, _, _, h3, h4⟩ :=
    lifecycle_releases_program_and_buffers okDriver emptyGL _ demoOps builtRenderer hsome
  refine ⟨_, hsome, ?_, ?_, ?_, h4⟩
  · exact List.eq_nil_iff_forall_not_mem.mpr fun n hn => by simpa [emptyGL] using (h1 n hn).1
  · exact List.eq_nil_iff_forall_not_mem.mpr fun n hn => by simpa [emptyGL] using h2 n hn
  · exact List.eq_nil_iff_forall_not_mem.mpr fun n hn => by simpa [emptyGL] using h3 n hn

/-- Claim C3 as stated fails: construct a renderer on a driver with nothing
live, upload two textures, draw twice and destroy it: no program, buffer or
shader is live, and the two textures that `sendTextureToOpenGL` created, 1
and 2, are. One upload and no draw leaves texture 1 live. -/
theorem lifecycle_leaks_textures :
    (lifecycle okDriver emptyGL demoOps).map (fun out => out.2.textures) = some [1, 2] ∧
    (lifecycle okDriver emptyGL demoOps).map (fun out => out.2.programs) = some [] ∧
    (lifecycle okDriver emptyGL demoOps).map (fun out => out.2.buffers) = some [] ∧
    (lifecycle okDriver emptyGL [.sendTextureToOpenGL [] .outside]).map (fun out => out.2.textures) =
      some [1] := by
  refine ⟨by decide, by decide, by decide, by decide⟩

/-! ## Shader compilation (C4, C5) -/

/-- Claim C4 at its failing inputs: when the vertex shader does not compile,
`CompileProgram` throws and leaves shader 1 live; when the fragment shader
does not compile it throws and leaves shaders 1 and 2 live. Only when both
compile (the program linking or not) has every shader been deleted. -/
theorem CompileProgram_leaks_shaders :
    (CompileProgram badVertexDriver vsSource fsSource emptyGL).1 =
      .error (.runtime_error "Shader compilation failed: syntax error") ∧
    (CompileProgram badVertexDriver vsSource fsSource emptyGL).2.shaders = [1] ∧
    (CompileProgram badFragmentDriver vsSource fsSource emptyGL).1 =
      .error (.runtime_error "Shader compilation failed: syntax error") ∧
    (CompileProgram badFragmentDriver vsSource fsSource emptyGL).2.shaders = [1, 2] ∧
    (CompileProgram badLinkDriver vsSource fsSource emptyGL).1 =
      .error (.runtime_error "Program link failed: link error") ∧
    (CompileProgram badLinkDriver vsSource fsSource emptyGL).2.shaders = [] ∧
    (CompileProgram okDriver vsSource fsSource emptyGL).1 = .ok 1 ∧
    (CompileProgram okDriver vsSource fsSource emptyGL).2.shaders = [] := by
  refine ⟨rfl, by decide, rfl, by decide, rfl, by decide, rfl, by decide⟩

/-- Claim C5, amended. `CompileShader` returns the shader name when the
compile status it reads is not 0. When it is 0 it throws: the
`std::length_error` of the vector when the info-log length it reads is
negative, `std::bad_alloc` when the heap cannot hold a log of that length,
and otherwise the `std::runtime_error` whose message is "Shader compilation
failed: " followed by the info log of the shader, as far as a buffer of that
length holds it: the whole log when the length is that of the log and its
closing zero character. `CompileProgram` (1) throws "Program creation failed"
when the program name is 0, after the one call `glCreateProgram`; otherwise
(2) it throws what the vertex stage throws, or else what the fragment stage
throws; (4) when both stages return and one of the names is 0 it deletes the
program and returns 0, without throwing; otherwise (3) when the link status
is 0 it throws as `CompileShader` does, the message being "Program link
failed: " followed by the info log of the program, and when it is not 0 it
returns the non-zero program name, live. When `CompileProgram` throws, the
constructor throws the same exception and makes no further call: no buffer
is created. -/
theorem CompileProgram_outcomes (D : Driver) (vsSrc fsSrc : String) (g : GLState) :
    (∀ type source g0,
      (compileStatus D type source g0 ≠ 0 →
        (CompileShader D type source g0).1 = .ok (D.createShader g0 type)) ∧
      (compileStatus D type source g0 = 0 →
        (shaderLogLength D type source g0 < 0 →
          (CompileShader D type source g0).1 = .error .length_error) ∧
        (0 ≤ shaderLogLength D type source g0 →
          D.allocates (shaderLogLength D type source g0).toNat = false →
          (CompileShader D type source g0).1 = .error .bad_alloc) ∧
        (0 ≤ shaderLogLength D type source g0 →
          D.allocates (shaderLogLength D type source g0).toNat = true →
          (CompileShader D type source g0).1 =
            .error (.runtime_error (infoLogMessage "Shader compilation failed: "
              (shaderLog D type source g0) (shaderLogLength D type source g0)))))) ∧
    (∀ head text : String, c_str text = text →
      infoLogMessage head text (text.length + 1) = head ++ text) ∧
    (D.createProgram g = 0 →
      CompileProgram D vsSrc fsSrc g =
        (.error (.runtime_error "Program creation failed"),
          { g with log := g.log ++ [.glCreateProgram] })) ∧
    (D.createProgram g ≠ 0 →
      (∀ e, (vertexStage D vsSrc g).1 = .error e →
        CompileProgram D vsSrc fsSrc g = (.error e, (vertexStage D vsSrc g).2)) ∧
      (∀ vs e, (vertexStage D vsSrc g).1 = .ok vs →
        (fragmentStage D vsSrc fsSrc g).1 = .error e →
        CompileProgram D vsSrc fsSrc g = (.error e, (fragmentStage D vsSrc fsSrc g).2)) ∧
      (∀ vs fs, (vertexStage D vsSrc g).1 = .ok vs →
        (fragmentStage D vsSrc fsSrc g).1 = .ok fs →
        (vs = 0 ∨ fs = 0 →
          (CompileProgram D vsSrc fsSrc g).1 = .ok 0 ∧
          (CompileProgram D vsSrc fsSrc g).2 =
            glDeleteProgram (D.createProgram g)
              (glDeleteShader vs (glDeleteShader fs (fragmentStage D vsSrc fsSrc g).2)) ∧
          D.createProgram g ∉ (CompileProgram D vsSrc fsSrc g).2.programs) ∧
        (vs ≠ 0 → fs ≠ 0 →
          (linkStatus D vsSrc fsSrc g vs fs = 0 →
            (programLogLength D vsSrc fsSrc g vs fs < 0 →
              (CompileProgram D vsSrc fsSrc g).1 = .error .length_error) ∧
            (0 ≤ programLogLength D vsSrc fsSrc g vs fs →
              D.allocates (programLogLength D vsSrc fsSrc g vs fs).toNat = false →
              (CompileProgram D vsSrc fsSrc g).1 = .error .bad_alloc) ∧
            (0 ≤ programLogLength D vsSrc fsSrc g vs fs →
              D.allocates (programLogLength D vsSrc fsSrc g vs fs).toNat = true →
              (CompileProgram D vsSrc fsSrc g).1 =
                .error (.runtime_error (infoLogMessage "Program link failed: "
                  (programLog D vsSrc fsSrc g vs fs)
                  (programLogLength D vsSrc fsSrc g vs fs))))) ∧
          (linkStatus D vsSrc fsSrc g vs fs ≠ 0 →
            (CompileProgram D vsSrc fsSrc g).1 = .ok (D.createProgram g) ∧
            D.createProgram g ∈ (CompileProgram D vsSrc fsSrc g).2.programs)))) ∧
    (∀ e, (CompileProgram D vsSource fsSource g).1 = .error e →
      SimpleRenderer.ctor D g = (.error e, (CompileProgram D vsSource fsSource g).2) ∧
      (SimpleRenderer.ctor D g).2.buffers = g.buffers) := by
  refine ⟨fun type source g0 => CompileShader_outcome D type source g0,
    fun head text h => infoLogMessage_full head text h,
    CompileProgram_no_program D vsSrc fsSrc g, ?_, ?_⟩
  · intro hp
    refine ⟨?_, ?_, ?_⟩
    · intro e he
      exact CompileProgram_vs_error D vsSrc fsSrc g _ e hp (Prod.ext he rfl)
    · intro vs e hv hf
      exact CompileProgram_fs_error D vsSrc fsSrc g _ _ vs e hp (Prod.ext hv rfl)
        (Prod.ext hf rfl)
    · intro vs fs hv hf
      have hv1 : CompileShader D GL_VERTEX_SHADER vsSrc (glCreateProgram D g).2 =
          (.ok vs, (vertexStage D vsSrc g).2) := Prod.ext hv rfl
      have hf1 : CompileShader D GL_FRAGMENT_SHADER fsSrc (vertexStage D vsSrc g).2 =
          (.ok fs, (fragmentStage D vsSrc fsSrc g).2) := Prod.ext hf rfl
      constructor
      · intro h0
        have h := CompileProgram_no_shader D vsSrc fsSrc g _ _ vs fs hp hv1 hf1 h0
        refine ⟨by rw [h], by rw [h], ?_⟩
        have hl := (CompileProgram_ok_live D vsSrc fsSrc g _ 0 h).2.2.1 rfl
        intro hmem
        rw [h] at hmem
        exact (hl _ hmem).2 rfl
      · intro hvs hfs
        constructor
        · intro hl
          have h := (CompileProgram_link_error D vsSrc fsSrc g _ _ vs fs hp hv1 hf1 hvs hfs
            hl).1
          rcases newInfoLog_cases D (programLogLength D vsSrc fsSrc g vs fs) with
            ⟨hn, he⟩ | ⟨hn, ha, he⟩ | ⟨hn, ha, he⟩
          · refine ⟨fun _ => ?_, fun h0 => absurd hn (by omega),
              fun h0 => absurd hn (by omega)⟩
            rw [h, he]
          · refine ⟨fun h0 => absurd h0 (by omega), fun _ _ => ?_, fun _ hb => ?_⟩
            · rw [h, he]
            · rw [ha] at hb
              simp at hb
          · refine ⟨fun h0 => absurd h0 (by omega), fun _ hb => ?_, fun _ _ => ?_⟩
            · rw [ha] at hb
              simp at hb
            · rw [h, he]
              simp only [List.length_replicate]
              rw [c_str_message _ _ _ (by decide)]
              rfl
        · intro hl
          have h := CompileProgram_linked D vsSrc fsSrc g _ _ vs fs hp hv1 hf1 hvs hfs hl
          refine ⟨by rw [h], ?_⟩
          have hlive := (CompileProgram_ok_live D vsSrc fsSrc g _ _ h).2.2.2 hp
          rw [h, hlive.2]
          simp
  · intro e he
    have h := ctor_of_error D g e he
    refine ⟨h, ?_⟩
    rw [h]
    exact (CompileProgram_live D vsSource fsSource g).1

/-- The outcomes of claim C5 on drivers that fail at each step in turn, and
on drivers that report the length of the log as 7, or whose heap cannot hold
the log. -/
theorem CompileProgram_outcomes_witness :
    CompileProgram noProgramDriver vsSource fsSource emptyGL =
      (.error (.runtime_error "Program creation failed"),
        { emptyGL with log := emptyGL.log ++ [.glCreateProgram] }) ∧
    (CompileProgram badVertexDriver vsSource fsSource emptyGL).1 =
      .error (.runtime_error "Shader compilation failed: syntax error") ∧
    (CompileProgram badFragmentDriver vsSource fsSource emptyGL).1 =
      .error (.runtime_error "Shader compilation failed: syntax error") ∧
    (CompileProgram badLinkDriver vsSource fsSource emptyGL).1 =
      .error (.runtime_error "Program link failed: link error") ∧
    ((CompileProgram okDriver vsSource fsSource emptyGL).1 = .ok 1 ∧
      1 ∈ (CompileProgram okDriver vsSource fsSource emptyGL).2.programs) ∧
    (SimpleRenderer.ctor badLinkDriver emptyGL).1 =
      .error (.runtime_error "Program link failed: link error") ∧
    (SimpleRenderer.ctor badLinkDriver emptyGL).2.buffers = [] ∧
    (CompileShader shortLogDriver GL_VERTEX_SHADER vsSource emptyGL).1 =
      .error (.runtime_error "Shader compilation failed: syntax") ∧
    (CompileShader noMemoryDriver GL_VERTEX_SHADER vsSource emptyGL).1 = .error .bad_alloc := by
  have hv := (CompileProgram_outcomes badVertexDriver vsSource fsSource emptyGL).2.2.2.1
    (by decide)
  have hf := (CompileProgram_outcomes badFragmentDriver vsSource fsSource emptyGL).2.2.2.1
    (by decide)
  have hl := (CompileProgram_outcomes badLinkDriver vsSource fsSource emptyGL).2.2.2.1
    (by decide)
  have ho := (CompileProgram_outcomes okDriver vsSource fsSource emptyGL).2.2.2.1 (by decide)
  have hc := (CompileProgram_outcomes badLinkDriver vsSource fsSource emptyGL).2.2.2.2
    (.runtime_error "Program link failed: link error") rfl
  have hs := ((CompileProgram_outcomes shortLogDriver vsSource fsSource emptyGL).1
    GL_VERTEX_SHADER vsSource emptyGL).2 rfl
  have hm := ((CompileProgram_outcomes noMemoryDriver vsSource fsSource emptyGL).1
    GL_VERTEX_SHADER vsSource emptyGL).2 rfl
  refine ⟨(CompileProgram_outcomes noProgramDriver vsSource fsSource emptyGL).2.2.1
      (by decide), ?_, ?_, ?_, ?_, ?_, ?_, ?_, ?_⟩
  · rw [hv.1 (.runtime_error "Shader compilation failed: syntax error") rfl]
  · rw [hf.2.1 1 (.runtime_error "Shader compilation failed: syntax error") rfl rfl]
  · exact (((hl.2.2 1 2 rfl rfl).2 (by decide) (by decide)).1 rfl).2.2 (by decide) rfl
  · exact ((ho.2.2 1 2 rfl rfl).2 (by decide) (by decide)).2 (by decide)
  · rw [hc.1]
  · exact hc.2
  · exact hs.2.2 (by decide) rfl
  · exact hm.2.1 (by decide) rfl

/-- Claim C5 as stated fails. When no shader object can be created
(`glCreateShader` answers 0) and the status read is non-zero, none of the
three failures happens, yet `CompileProgram` does not return the non-zero
program it created: it deletes it and returns 0, and the constructor goes on
to create its four buffers. When the status read is 0 and the length read is
negative, what is thrown is not the "Shader compilation failed: " message but
the exception of the vector. -/
theorem CompileProgram_returns_zero :
    noShaderDriver.createProgram emptyGL = 1 ∧
    (CompileProgram noShaderDriver vsSource fsSource emptyGL).1 = .ok 0 ∧
    (CompileProgram noShaderDriver vsSource fsSource emptyGL).2.programs = [] ∧
    (SimpleRenderer.ctor noShaderDriver emptyGL).1 = .ok idleRenderer ∧
    (SimpleRenderer.ctor noShaderDriver emptyGL).2.buffers = [1, 2, 3, 4] ∧
    compileStatus garbageDriver GL_VERTEX_SHADER vsSource
      (glCreateProgram garbageDriver emptyGL).2 = 0 ∧
    (CompileProgram garbageDriver vsSource fsSource emptyGL).1 = .error .length_error := by
  refine ⟨by decide, rfl, by decide, rfl, by decide, rfl, rfl⟩

/-! ## The draw counter and the rotation angle (C6) -/

/-- Claim C6, amended: the constructor starts the draw counter at 0, and for
every N below 2^31 (the counter is a 32-bit `int`), on a renderer with a
non-zero program and at least two textures, N draws succeed and leave the
counter at N; the draw made next uploads the model matrix of the angle
`(float)N / 50.0f`, and no other model matrix. That angle is a binary32
number within the fraction 2^-23 + 2^-48 of N/50; it is N/50 itself when N
is a multiple of 50 below 2^24. The draw leaves the counter at N + 1 when
that is below 2^31. -/
theorem Draw_angle_and_count (D : Driver) (r : SimpleRenderer) (g : GLState) (N : Nat)
    (hp : r.mProgram ≠ 0) (hlen : 2 ≤ r.textureVec.length) (h0 : r.mDrawCount = 0)
    (hN : N < 2 ^ 31) :
    (∀ g0 r0 g1, SimpleRenderer.ctor D g0 = (.ok r0, g1) → r0.mDrawCount = 0) ∧
    ∃ rN gN,
      drawN D N (r, g) = some (rN, gN) ∧ rN.mDrawCount = N ∧
      ∃ r1 g1,
        SimpleRenderer.Draw D rN gN = some (r1, g1) ∧
        GLCall.glUniformMatrix4fv r.mModelUniformLocation 1 GL_FALSE
          (.SimpleModelMatrix (.div (.ofInt N) (.lit 50 1))) ∈ g1.log.drop gN.log.length ∧
        (∀ location count transpose radians,
          GLCall.glUniformMatrix4fv location count transpose (.SimpleModelMatrix radians) ∈
            g1.log.drop gN.log.length →
          radians = .div (.ofInt N) (.lit 50 1)) ∧
        (∃ angle, FloatExpr.binary32 (.div (.ofInt N) (.lit 50 1)) = some angle ∧
          |angle - (N : Rat) / 50| ≤ (N : Rat) / 50 * (1 / 2 ^ 23 + 1 / 2 ^ 48)) ∧
        (∀ k : Nat, N = 50 * k → N < 2 ^ 24 →
          FloatExpr.binary32 (.div (.ofInt N) (.lit 50 1)) = some (k : Rat)) ∧
        (N + 1 < 2 ^ 31 → r1.mDrawCount = N + 1) := by
  refine ⟨fun g0 r0 g1 h => (ctor_ok_fields D g0 g1 r0 h).1, ?_⟩
  obtain ⟨gN, hdraws⟩ := drawN_ready D r g hp hlen h0 N
  have hw : wrapInt32 (N : Int) = N := wrapInt32_of_lt N hN
  rw [hw] at hdraws
  obtain ⟨g1, hd, _, _, _, _, hmodel, honly, _⟩ :=
    Draw_ready D { r with mDrawCount := (N : Int) } gN hp hlen
  refine ⟨_, gN, hdraws, rfl, _, g1, hd, hmodel, honly, angle_error N hN, ?_, ?_⟩
  · intro k hk hlt
    subst hk
    exact angle_exact k hlt
  · intro hlt
    have := wrapInt32_of_lt (N + 1) hlt
    simpa using this

/-- Claim C6 at N = 100, with the angles at N = 0 and N = 50. -/
theorem Draw_angle_and_count_witness :
    readyRenderer.mProgram ≠ 0 ∧ 2 ≤ readyRenderer.textureVec.length ∧
    readyRenderer.mDrawCount = 0 ∧
    (∃ rN gN,
      drawN okDriver 100 (readyRenderer, emptyGL) = some (rN, gN) ∧ rN.mDrawCount = 100 ∧
      ∃ r1 g1,
        SimpleRenderer.Draw okDriver rN gN = some (r1, g1) ∧
        GLCall.glUniformMatrix4fv 0 1 0 (.SimpleModelMatrix (.div (.ofInt 100) (.lit 50 1))) ∈
          g1.log.drop gN.log.length ∧
        FloatExpr.binary32 (.div (.ofInt 100) (.lit 50 1)) = some 2 ∧
        r1.mDrawCount = 101) ∧
    FloatExpr.binary32 (.div (.ofInt 0) (.lit 50 1)) = some 0 ∧
    FloatExpr.binary32 (.div (.ofInt 50) (.lit 50 1)) = some 1 := by
  refine ⟨by decide, by decide, rfl, ?_, ?_, ?_⟩
  · obtain ⟨rN, gN, h1, h2, r1, g1, h3, h4, _, _, h5, h6⟩ :=
      (Draw_angle_and_count okDriver readyRenderer emptyGL 100 (by decide) (by decide) rfl
        (by norm_num)).2
    refine ⟨rN, gN, h1, h2, r1, g1, h3, h4, ?_, ?_⟩
    · simpa using h5 2 (by norm_num) (by norm_num)
    · simpa using h6 (by norm_num)
  · simpa using angle_exact 0 (by norm_num)
  · simpa using angle_exact 1 (by norm_num)

/-- Claim C6 as stated fails twice. At N = 1 the draw made after one draw
uploads the model matrix of `(float)1 / 50.0f`, which is the binary32 number
5368709/268435456, not 1/50. At N = 2^31 the counter, a 32-bit `int`, holds
-2^31 after 2^31 draws from 0, not 2^31. -/
theorem Draw_angle_and_count_fails :
    (∃ r1 g1 r2 g2,
      drawN okDriver 1 (readyRenderer, emptyGL) = some (r1, g1) ∧ r1.mDrawCount = 1 ∧
      SimpleRenderer.Draw okDriver r1 g1 = some (r2, g2) ∧
      GLCall.glUniformMatrix4fv 0 1 0 (.SimpleModelMatrix (.div (.ofInt 1) (.lit 50 1))) ∈
        g2.log.drop g1.log.length ∧
      FloatExpr.binary32 (.div (.ofInt 1) (.lit 50 1)) = some (5368709 / 268435456) ∧
      (5368709 / 268435456 : Rat) ≠ 1 / 50) ∧
    ∃ r1 g1,
      drawN okDriver (2 ^ 31) (readyRenderer, emptyGL) = some (r1, g1) ∧
      r1.mDrawCount = -2147483648 ∧ r1.mDrawCount ≠ 2 ^ 31 := by
  constructor
  · obtain ⟨g1, h⟩ :=
      drawN_ready okDriver readyRenderer emptyGL (by decide) (by decide) rfl 1
    obtain ⟨g2, hd, _, _, _, _, hmodel, _⟩ :=
      Draw_ready okDriver { readyRenderer with mDrawCount := wrapInt32 ((1 : Nat) : Int) } g1
        (by decide) (by decide)
    exact ⟨_, g1, _, g2, h, by decide, hd, hmodel, angle_one, by norm_num⟩
  · obtain ⟨gn, h⟩ :=
      drawN_ready okDriver readyRenderer emptyGL (by decide) (by decide) rfl (2 ^ 31)
    refine ⟨_, gn, h, ?_, ?_⟩ <;> norm_num [wrapInt32]

/-! ## The window size (C7) -/

/-- Claim C8: when the program of the renderer is `0`, `Draw` enables depth
testing, clears the colour and depth buffers and does nothing else: these two
calls are all it adds to the history, it succeeds whatever the texture list
holds (the empty list too), and the renderer and the live objects are as
before. -/
theorem Draw_without_program (D : Driver) (r : SimpleRenderer) (g : GLState)
    (h : r.mProgram = 0) :
    SimpleRenderer.Draw D r g =
      some (r, { g with
        log := g.log ++
          [.glEnable GL_DEPTH_TEST, .glClear (GL_COLOR_BUFFER_BIT ||| GL_DEPTH_BUFFER_BIT)] }) ∧
    SimpleRenderer.Draw D { r with textureVec := [] } g =
      some ({ r with textureVec := [] }, { g with
        log := g.log ++
          [.glEnable GL_DEPTH_TEST, .glClear (GL_COLOR_BUFFER_BIT ||| GL_DEPTH_BUFFER_BIT)] }) := by
  simp [SimpleRenderer.Draw, h, glEnable, glClear, emit]

/-- Claim C8 on a renderer without program and without texture. -/
theorem Draw_without_program_witness :
    idleRenderer.mProgram = 0 ∧ idleRenderer.textureVec = [] ∧
    SimpleRenderer.Draw okDriver idleRenderer emptyGL =
      some (idleRenderer, { emptyGL with log := [.glEnable 0x0B71, .glClear 0x4100] }) :=
  ⟨rfl, rfl, (Draw_without_program okDriver idleRenderer emptyGL rfl).1⟩

/-- Claim C9: with a non-zero program and at least two names in the texture
list both lookups of `Draw` are in range: `Draw` succeeds, its first eleven
calls bind element 0 to texture unit 0 and set the sampler `OurTexture` to 0,
bind element 1 to texture unit 1 and set the sampler `normalMap` to 1 (each
location being the driver's answer at that point), and the texture list is
left as it was; with fewer than two names a lookup is out of range. -/
theorem Draw_texture_lookups (D : Driver) (r : SimpleRenderer) (g : GLState)
    (hp : r.mProgram ≠ 0) :
    (2 ≤ r.textureVec.length →
      ∃ texture0 texture1,
        r.textureVec[0]? = some texture0 ∧ r.textureVec[1]? = some texture1 ∧
        ∃ r1 g1,
          SimpleRenderer.Draw D r g = some (r1, g1) ∧
          r1.textureVec = r.textureVec ∧
          (g1.log.drop g.log.length).take 11 =
            [.glEnable GL_DEPTH_TEST, .glClear (GL_COLOR_BUFFER_BIT ||| GL_DEPTH_BUFFER_BIT),
              .glUseProgram r.mProgram,
              .glActiveTexture GL_TEXTURE0,
              .glBindTexture GL_TEXTURE_2D texture0,
              .glGetUniformLocation r.mProgram "OurTexture",
              .glUniform1i
                (D.uniformLocation
                  { g with
                    log := g.log ++
                      [.glEnable GL_DEPTH_TEST,
                        .glClear (GL_COLOR_BUFFER_BIT ||| GL_DEPTH_BUFFER_BIT),
                        .glUseProgram r.mProgram,
                        .glActiveTexture GL_TEXTURE0,
                        .glBindTexture GL_TEXTURE_2D texture0] }
                  r.mProgram "OurTexture") 0,
              .glActiveTexture (GL_TEXTURE0 + 1),
              .glBindTexture GL_TEXTURE_2D texture1,
              .glGetUniformLocation r.mProgram "normalMap",
              .glUniform1i
                (D.uniformLocation
                  { g with
                    log := g.log ++
                      [.glEnable GL_DEPTH_TEST,
                        .glClear (GL_COLOR_BUFFER_BIT ||| GL_DEPTH_BUFFER_BIT),
                        .glUseProgram r.mProgram,
                        .glActiveTexture GL_TEXTURE0,
                        .glBindTexture GL_TEXTURE_2D texture0,
                        .glGetUniformLocation r.mProgram "OurTexture",
                        .glUniform1i
                          (D.uniformLocation
                            { g with
                              log := g.log ++
                                [.glEnable GL_DEPTH_TEST,
                                  .glClear (GL_COLOR_BUFFER_BIT ||| GL_DEPTH_BUFFER_BIT),
                                  .glUseProgram r.mProgram,
                                  .glActiveTexture GL_TEXTURE0,
                                  .glBindTexture GL_TEXTURE_2D texture0] }
                            r.mProgram "OurTexture") 0,
                        .glActiveTexture (GL_TEXTURE0 + 1),
                        .glBindTexture GL_TEXTURE_2D texture1] }
                  r.mProgram "normalMap") 1]) ∧
    (r.textureVec.length < 2 → SimpleRenderer.Draw D r g = none) := by
  constructor
  · intro hlen
    match htv : r.textureVec with
    | [] => simp [htv] at hlen
    | [_] => simp [htv] at hlen
    | texture0 :: texture1 :: tl =>
      refine ⟨texture0, texture1, by simp, by simp, ?_⟩
      simp [SimpleRenderer.Draw, hp, htv, glEnable, glClear, glUseProgram, glActiveTexture,
        glBindTexture, glGetUniformLocation, glUniform1i, glBindBuffer,
        glEnableVertexAttribArray, glVertexAttribPointer, glUniformMatrix4fv, glUniform3fv,
        glUniform1fv, glDrawElements, emit]
      refine ⟨_, _, ⟨rfl, rfl⟩, ?_, ?_⟩
      · rfl
      · simp
  · intro hlen
    match htv : r.textureVec with
    | [] => simp [SimpleRenderer.Draw, hp, htv]
    | [t] => simp [SimpleRenderer.Draw, hp, htv]
    | _ :: _ :: _ =>
      rw [htv] at hlen
      simp only [List.length_cons] at hlen
      omega

/-- Claim C9 on a renderer with two textures, and on one with a single
texture. -/
theorem Draw_texture_lookups_witness :
    readyRenderer.mProgram ≠ 0 ∧ 2 ≤ readyRenderer.textureVec.length ∧
    (∃ out, SimpleRenderer.Draw okDriver readyRenderer emptyGL = some out ∧
      out.1.textureVec = [1, 2] ∧
      out.2.log.take 11 =
        [.glEnable 0x0B71, .glClear 0x4100, .glUseProgram 1,
          .glActiveTexture 0x84C0, .glBindTexture 0x0DE1 1,
          .glGetUniformLocation 1 "OurTexture", .glUniform1i 0 0,
          .glActiveTexture 0x84C1, .glBindTexture 0x0DE1 2,
          .glGetUniformLocation 1 "normalMap", .glUniform1i 0 1]) ∧
    SimpleRenderer.Draw okDriver { readyRenderer with textureVec := [1] } emptyGL = none := by
  refine ⟨by decide, by decide, ?_, ?_⟩
  · obtain ⟨t0, t1, h0, h1, r1, g1, hd, htv, hlog⟩ :=
      (Draw_texture_lookups okDriver readyRenderer emptyGL (by decide)).1 (by decide)
    have e0 : t0 = 1 := by simpa [readyRenderer] using h0.symm
    have e1 : t1 = 2 := by simpa [readyRenderer] using h1.symm
    subst e0 e1
    exact ⟨(r1, g1), hd, htv, hlog⟩
  · exact (Draw_texture_lookups okDriver { readyRenderer with textureVec := [1] } emptyGL
      (by decide)).2 (by decide)

end PlanetGame
